import Mathlib

/-!
Shallow embedding of the scoring core of the go-checker SEO auditor
(src/main.go).  Go float64 arithmetic is modelled over ℚ; machine
floating point rounding is out of scope.  Playwright page queries and
HTTP probes are modelled as input signal records (the PageSignals of the
design): each scorer consumes the values the Go code extracts from the
page and produces the score/issue record it builds.
-/

namespace SEOChecker

/-- Go math.Round: rounds half away from zero (src/main.go line 1230 uses it). -/
def goRound (x : ℚ) : ℤ := if 0 ≤ x then ⌊x + 1/2⌋ else ⌈x - 1/2⌉

/-- math.Round(score*100)/100, the 2-decimal rounding of the aggregator. -/
def round2 (x : ℚ) : ℚ := (goRound (x * 100) : ℚ) / 100

/-- rateLCP, src/main.go lines 1041-1048 (lcp is a Go int). -/
def rateLCP (lcp : ℤ) : String :=
  if lcp ≤ 2500 then "good"
  else if lcp ≤ 4000 then "needs-improvement"
  else "poor"

/-- rateFCP, src/main.go lines 1050-1057 (fcp is a Go int). -/
def rateFCP (fcp : ℤ) : String :=
  if fcp ≤ 1800 then "good"
  else if fcp ≤ 3000 then "needs-improvement"
  else "poor"

/-- rateCLS, src/main.go lines 1059-1066 (cls is a Go float64). -/
def rateCLS (cls : ℚ) : String :=
  if cls ≤ 1/10 then "good"
  else if cls ≤ 1/4 then "needs-improvement"
  else "poor"

/-- rateTTFB, src/main.go lines 1068-1075. -/
def rateTTFB (ttfb : ℚ) : String :=
  if ttfb ≤ 800 then "good"
  else if ttfb ≤ 1800 then "needs-improvement"
  else "poor"

/-- rateINP, src/main.go lines 1077-1084. -/
def rateINP (inp : ℚ) : String :=
  if inp ≤ 200 then "good"
  else if inp ≤ 500 then "needs-improvement"
  else "poor"

/-- calculateGrade, src/main.go lines 1233-1260. -/
def calculateGrade (score : ℚ) : String :=
  if 90 ≤ score then "A+"
  else if 85 ≤ score then "A"
  else if 80 ≤ score then "A-"
  else if 75 ≤ score then "B+"
  else if 70 ≤ score then "B"
  else if 65 ≤ score then "B-"
  else if 60 ≤ score then "C+"
  else if 55 ≤ score then "C"
  else if 50 ≤ score then "C-"
  else if 45 ≤ score then "D+"
  else if 40 ≤ score then "D"
  else "F"

/-- Position of a grade on the 12-value ordinal scale
F < D < D+ < C- < C < C+ < B- < B < B+ < A- < A < A+. -/
def gradeOrd (grade : String) : ℕ :=
  if grade = "A+" then 11
  else if grade = "A" then 10
  else if grade = "A-" then 9
  else if grade = "B+" then 8
  else if grade = "B" then 7
  else if grade = "B-" then 6
  else if grade = "C+" then 5
  else if grade = "C" then 4
  else if grade = "C-" then 3
  else if grade = "D+" then 2
  else if grade = "D" then 1
  else 0

/-- The 12 grade breakpoints written as a single descending threshold chain
over the ordinals of gradeOrd; proof-side companion of calculateGrade. -/
def gradeLadder (z : ℚ) : ℕ :=
  if 90 ≤ z then 11 else if 85 ≤ z then 10 else if 80 ≤ z then 9
  else if 75 ≤ z then 8 else if 70 ≤ z then 7 else if 65 ≤ z then 6
  else if 60 ≤ z then 5 else if 55 ≤ z then 4 else if 50 ≤ z then 3
  else if 45 ≤ z then 2 else if 40 ≤ z then 1 else 0

/-- TechnicalSEOScore, src/main.go lines 39-52 (attribution-free scalar fields). -/
structure TechnicalSEOScore where
  score : ℚ
  maxScore : ℚ
  loadTime : ℚ
  pageSize : ℕ
  httpRequests : ℕ
  hasRobotsTxt : Bool
  hasSitemap : Bool
  isHTTPS : Bool
  isMobileFriendly : Bool
  hasViewport : Bool
  httpStatusCode : ℕ
  issues : List String

/-- OnPageSEOScore, src/main.go lines 55-71. -/
structure OnPageSEOScore where
  score : ℚ
  maxScore : ℚ
  hasTitle : Bool
  titleLength : ℕ
  hasMetaDescription : Bool
  metaDescriptionLength : ℕ
  hasH1 : Bool
  h1Count : ℕ
  h2Count : ℕ
  hasOGTags : Bool
  hasTwitterCard : Bool
  hasCanonical : Bool
  keywordInTitle : Bool
  properHeadingHierarchy : Bool
  issues : List String

/-- ContentQualityScore, src/main.go lines 74-85. -/
structure ContentQualityScore where
  score : ℚ
  maxScore : ℚ
  wordCount : ℕ
  paragraphCount : ℕ
  imageCount : ℕ
  imagesWithAlt : ℕ
  internalLinks : ℕ
  externalLinks : ℕ
  readabilityScore : ℚ
  issues : List String

/-- LinkStructureScore, src/main.go lines 88-97. -/
structure LinkStructureScore where
  score : ℚ
  maxScore : ℚ
  internalLinks : ℕ
  externalLinks : ℕ
  brokenLinks : ℕ
  hasBreadcrumbs : Bool
  descriptiveAnchors : Bool
  issues : List String

/-- SchemaMarkupScore, src/main.go lines 100-108. -/
structure SchemaMarkupScore where
  score : ℚ
  maxScore : ℚ
  hasSchema : Bool
  schemaTypes : List String
  hasOrganization : Bool
  hasBreadcrumb : Bool
  issues : List String

/-- SecurityScore, src/main.go lines 111-119. -/
structure SecurityScore where
  score : ℚ
  maxScore : ℚ
  isHTTPS : Bool
  hasSSL : Bool
  mixedContent : Bool
  hasSecurityHeaders : Bool
  issues : List String

/-- UserExperienceScore, src/main.go lines 122-130. -/
structure UserExperienceScore where
  score : ℚ
  maxScore : ℚ
  hasFavicon : Bool
  fontSizeReadable : Bool
  hasLangAttribute : Bool
  noIntrusivePopups : Bool
  issues : List String

/-- WebVitalsScore, src/main.go lines 133-154 (numeric fields modelled over
ℚ/ℤ, the loosely typed attribution payloads omitted). -/
structure WebVitalsScore where
  score : ℚ
  maxScore : ℚ
  lcp : ℤ
  lcpRating : String
  fcp : ℤ
  fcpRating : String
  cls : ℚ
  clsRating : String
  inp : ℚ
  inpRating : String
  ttfb : ℚ
  ttfbRating : String
  domContentLoaded : ℚ
  domComplete : ℚ
  transferSize : ℕ
  resourceCount : ℕ
  issues : List String

/-- SEOAudit, src/main.go lines 21-36: the per-category inputs of the
aggregation stage (the Go struct also carries the outputs OverallScore,
Grade, Recommendations, Markdown, filled in later from these fields). -/
structure SEOAudit where
  url : String
  technicalSEO : TechnicalSEOScore
  onPageSEO : OnPageSEOScore
  contentQuality : ContentQualityScore
  linkStructure : LinkStructureScore
  schemaMarkup : SchemaMarkupScore
  security : SecurityScore
  userExperience : UserExperienceScore
  webVitals : WebVitalsScore

/-- The weight map literal of calculateOverallScore, src/main.go lines 1211-1219. -/
def weights (k : String) : ℚ :=
  if k = "technical" then 30/100
  else if k = "onpage" then 25/100
  else if k = "content" then 20/100
  else if k = "links" then 10/100
  else if k = "schema" then 5/100
  else if k = "security" then 5/100
  else if k = "ux" then 5/100
  else 0

/-- calculateOverallScore, src/main.go lines 1210-1231. -/
def calculateOverallScore (audit : SEOAudit) : ℚ :=
  round2
    (audit.technicalSEO.score / audit.technicalSEO.maxScore * 100 * weights "technical"
      + audit.onPageSEO.score / audit.onPageSEO.maxScore * 100 * weights "onpage"
      + audit.contentQuality.score / audit.contentQuality.maxScore * 100 * weights "content"
      + audit.linkStructure.score / audit.linkStructure.maxScore * 100 * weights "links"
      + audit.schemaMarkup.score / audit.schemaMarkup.maxScore * 100 * weights "schema"
      + audit.security.score / audit.security.maxScore * 100 * weights "security"
      + audit.userExperience.score / audit.userExperience.maxScore * 100 * weights "ux")

/-- Page/URL observations consumed by auditTechnicalSEO (src/main.go lines
238-331): the URL scheme, locator counts, probe results and measured values
the Go code reads from the page before branching. -/
structure TechnicalSignals where
  scheme : String
  viewportCount : ℕ
  robotsTxtExists : Bool
  sitemapExists : Bool
  loadTime : ℚ
  contentLength : ℕ
  imgCount : ℕ
  scriptCount : ℕ
  stylesheetCount : ℕ
  canonicalCount : ℕ

/-- HTTPS check of auditTechnicalSEO, src/main.go lines 249-254. -/
def techHTTPSCheck (scheme : String) : ℚ × List String :=
  if scheme = "https" then (15, []) else (0, ["Site is not using HTTPS"])

/-- Viewport check, src/main.go lines 257-264. -/
def techViewportCheck (viewportCount : ℕ) : ℚ × List String :=
  if 0 < viewportCount then (10, []) else (0, ["Missing viewport meta tag"])

/-- robots.txt check, src/main.go lines 267-272. -/
def techRobotsCheck (robotsTxtExists : Bool) : ℚ × List String :=
  if robotsTxtExists then (10, []) else (0, ["robots.txt not found"])

/-- sitemap.xml check, src/main.go lines 275-280. -/
def techSitemapCheck (sitemapExists : Bool) : ℚ × List String :=
  if sitemapExists then (10, []) else (0, ["sitemap.xml not found"])

/-- Load-time tiering, src/main.go lines 283-294 (the %.2f rendering of the
seconds value is abstracted by toString). -/
def techLoadTimeCheck (loadTime : ℚ) : ℚ × List String :=
  if loadTime < 2000 then (20, [])
  else if loadTime < 3000 then (15, ["Page load time is moderate (2-3 seconds)"])
  else if loadTime < 5000 then (10, ["Page load time is slow (3-5 seconds)"])
  else (5, ["Page load time is very slow (" ++ toString (loadTime / 1000) ++ " seconds)"])

/-- Page-size check, src/main.go lines 297-303 (%.2f MB rendering abstracted). -/
def techPageSizeCheck (contentLength : ℕ) : ℚ × List String :=
  if contentLength < 3 * 1024 * 1024 then (10, [])
  else (0, ["Page size is large (" ++ toString ((contentLength : ℚ) / (1024 * 1024)) ++ " MB)"])

/-- Estimated request-count tiering, src/main.go lines 306-316. -/
def techRequestsCheck (httpRequests : ℕ) : ℚ × List String :=
  if httpRequests < 50 then (10, [])
  else if httpRequests < 100 then (5, [])
  else (0, ["High number of HTTP requests (" ++ toString httpRequests ++ ")"])

/-- Canonical-tag check, src/main.go lines 319-324. -/
def techCanonicalCheck (canonicalCount : ℕ) : ℚ × List String :=
  if 0 < canonicalCount then (10, []) else (0, ["Missing canonical tag"])

/-- auditTechnicalSEO, src/main.go lines 238-331: the per-check awards are
accumulated in source order and the issue strings are appended in source
order; the unconditional +5 is the baseline status-code credit of line 328. -/
def auditTechnicalSEO (s : TechnicalSignals) : TechnicalSEOScore :=
  let https := techHTTPSCheck s.scheme
  let viewport := techViewportCheck s.viewportCount
  let robots := techRobotsCheck s.robotsTxtExists
  let sitemap := techSitemapCheck s.sitemapExists
  let load := techLoadTimeCheck s.loadTime
  let size := techPageSizeCheck s.contentLength
  let requests := techRequestsCheck (s.imgCount + s.scriptCount + s.stylesheetCount)
  let canonical := techCanonicalCheck s.canonicalCount
  { score := https.1 + viewport.1 + robots.1 + sitemap.1 + load.1 + size.1
      + requests.1 + canonical.1 + 5
    maxScore := 100
    loadTime := s.loadTime
    pageSize := s.contentLength
    httpRequests := s.imgCount + s.scriptCount + s.stylesheetCount
    hasRobotsTxt := s.robotsTxtExists
    hasSitemap := s.sitemapExists
    isHTTPS := decide (s.scheme = "https")
    isMobileFriendly := decide (0 < s.viewportCount)
    hasViewport := decide (0 < s.viewportCount)
    httpStatusCode := 200
    issues := https.2 ++ viewport.2 ++ robots.2 ++ sitemap.2 ++ load.2 ++ size.2
      ++ requests.2 ++ canonical.2 }

/-- Page observations consumed by auditOnPageSEO (src/main.go lines 334-450)
and checkHeadingHierarchy (lines 1165-1191).  page.Title() and the meta
description attribute are modelled as strings (empty when absent); Go byte
length is modelled by String.length, identical on the ASCII inputs used here. -/
structure OnPageSignals where
  title : String
  metaDescription : String
  h1Count : ℕ
  h2Count : ℕ
  h3Count : ℕ
  h4Count : ℕ
  h5Count : ℕ
  h6Count : ℕ
  ogTitleCount : ℕ
  ogDescCount : ℕ
  ogImageCount : ℕ
  twitterCardCount : ℕ
  canonicalCount : ℕ

/-- Title check of auditOnPageSEO, src/main.go lines 341-358: +15 for a
present title, then the 50-60 length band (+10) or a short/long issue (+5). -/
def onPageTitleCheck (title : String) : ℚ × List String :=
  if title ≠ "" then
    if 50 ≤ title.length ∧ title.length ≤ 60 then (15 + 10, [])
    else if title.length < 50 then (15 + 5, ["Title tag is too short (< 50 characters)"])
    else if 60 < title.length then (15 + 5, ["Title tag is too long (> 60 characters)"])
    else (15, [])
  else (0, ["Missing title tag"])

/-- Meta-description check, src/main.go lines 361-378. -/
def onPageMetaDescCheck (metaDescription : String) : ℚ × List String :=
  if metaDescription ≠ "" then
    if 150 ≤ metaDescription.length ∧ metaDescription.length ≤ 160 then (15 + 10, [])
    else if metaDescription.length < 150 then
      (15 + 5, ["Meta description is too short (< 150 characters)"])
    else if 160 < metaDescription.length then
      (15 + 5, ["Meta description is too long (> 160 characters)"])
    else (15, [])
  else (0, ["Missing meta description"])

/-- H1 check, src/main.go lines 381-394. -/
def onPageH1Check (h1Count : ℕ) : ℚ × List String :=
  if 0 < h1Count then
    if h1Count = 1 then (15, [])
    else (5, ["Multiple H1 tags found (" ++ toString h1Count ++ ")"])
  else (0, ["Missing H1 tag"])

/-- checkHeadingHierarchy, src/main.go lines 1165-1191. -/
def checkHeadingHierarchy (s : OnPageSignals) : Bool :=
  if s.h1Count = 0 then false
  else if 0 < s.h3Count ∧ s.h2Count = 0 then false
  else if 0 < s.h4Count ∧ s.h3Count = 0 then false
  else if 0 < s.h5Count ∧ s.h4Count = 0 then false
  else if 0 < s.h6Count ∧ s.h5Count = 0 then false
  else true

/-- H2 credit, src/main.go lines 397-401. -/
def onPageH2Points (h2Count : ℕ) : ℚ := if 0 < h2Count then 5 else 0

/-- Heading-hierarchy check, src/main.go lines 404-409. -/
def onPageHierarchyCheck (proper : Bool) : ℚ × List String :=
  if proper then (10, []) else (0, ["Improper heading hierarchy"])

/-- Open Graph triple check, src/main.go lines 412-421. -/
def onPageOGCheck (hasOGTags : Bool) : ℚ × List String :=
  if hasOGTags then (10, []) else (0, ["Incomplete Open Graph tags"])

/-- Twitter Card check, src/main.go lines 424-431. -/
def onPageTwitterCheck (twitterCardCount : ℕ) : ℚ × List String :=
  if 0 < twitterCardCount then (5, []) else (0, ["Missing Twitter Card tags"])

/-- Canonical-tag check of auditOnPageSEO, src/main.go lines 434-441. -/
def onPageCanonicalCheck (canonicalCount : ℕ) : ℚ × List String :=
  if 0 < canonicalCount then (10, []) else (0, ["Missing canonical tag"])

/-- Keyword-in-title credit, src/main.go lines 444-447. -/
def onPageKeywordPoints (title : String) : ℚ :=
  if title ≠ "" ∧ 0 < title.length then 5 else 0

/-- auditOnPageSEO, src/main.go lines 334-450. -/
def auditOnPageSEO (s : OnPageSignals) : OnPageSEOScore :=
  let title := onPageTitleCheck s.title
  let metaDesc := onPageMetaDescCheck s.metaDescription
  let h1 := onPageH1Check s.h1Count
  let hasOGTags := 0 < s.ogTitleCount ∧ 0 < s.ogDescCount ∧ 0 < s.ogImageCount
  let hierarchy := onPageHierarchyCheck (checkHeadingHierarchy s)
  let og := onPageOGCheck (decide hasOGTags)
  let twitter := onPageTwitterCheck s.twitterCardCount
  let canonical := onPageCanonicalCheck s.canonicalCount
  { score := title.1 + metaDesc.1 + h1.1 + onPageH2Points s.h2Count + hierarchy.1 + og.1
      + twitter.1 + canonical.1 + onPageKeywordPoints s.title
    maxScore := 100
    hasTitle := decide (s.title ≠ "")
    titleLength := s.title.length
    hasMetaDescription := decide (s.metaDescription ≠ "")
    metaDescriptionLength := s.metaDescription.length
    hasH1 := decide (0 < s.h1Count)
    h1Count := s.h1Count
    h2Count := s.h2Count
    hasOGTags := decide hasOGTags
    hasTwitterCard := decide (0 < s.twitterCardCount)
    hasCanonical := decide (0 < s.canonicalCount)
    keywordInTitle := decide (s.title ≠ "" ∧ 0 < s.title.length)
    properHeadingHierarchy := checkHeadingHierarchy s
    issues := title.2 ++ metaDesc.2 ++ h1.2 ++ hierarchy.2 ++ og.2
      ++ twitter.2 ++ canonical.2 }

/-- Body-text and link observations consumed by auditContentQuality
(src/main.go lines 453-572).  wordCount is len(strings.Fields(bodyText)),
sentenceMarks the total count of ".", "!" and "?" in bodyText, and the
internal/external link counts are the classification results of the loop
over a[href] elements (lines 517-539). -/
structure ContentSignals where
  wordCount : ℕ
  sentenceMarks : ℕ
  paragraphCount : ℕ
  imageCount : ℕ
  imagesWithAlt : ℕ
  internalLinks : ℕ
  externalLinks : ℕ

/-- Word-count tiering, src/main.go lines 466-477. -/
def contentWordCountCheck (wordCount : ℕ) : ℚ × List String :=
  if 1000 ≤ wordCount then (25, [])
  else if 500 ≤ wordCount then (15, ["Content length is moderate (500-1000 words)"])
  else if 300 ≤ wordCount then (10, ["Content length is short (300-500 words)"])
  else (5, ["Content is too thin (" ++ toString wordCount ++ " words)"])

/-- Image alt-text banding, src/main.go lines 490-515 (%.0f percentage
rendering abstracted by toString); with no images the branch awards a flat
10 points and no issue (line 514). -/
def contentAltTextCheck (imageCount imagesWithAlt : ℕ) : ℚ × List String :=
  if 0 < imageCount then
    let altPercentage : ℚ := (imagesWithAlt : ℚ) / (imageCount : ℚ) * 100
    if altPercentage = 100 then (20, [])
    else if 75 ≤ altPercentage then
      (15, [toString altPercentage ++ "% of images have alt text"])
    else if 50 ≤ altPercentage then
      (10, ["Only " ++ toString altPercentage ++ "% of images have alt text"])
    else (5, ["Most images missing alt text (" ++ toString altPercentage ++ "%)"])
  else (10, [])

/-- Internal-link check of auditContentQuality, src/main.go lines 541-546. -/
def contentInternalLinksCheck (internalLinks : ℕ) : ℚ × List String :=
  if 3 ≤ internalLinks then (15, [])
  else (5, ["Low internal linking (" ++ toString internalLinks ++ " links)"])

/-- External-link check of auditContentQuality, src/main.go lines 548-552. -/
def contentExternalLinksCheck (externalLinks : ℕ) : ℚ × List String :=
  if 0 < externalLinks then (10, []) else (0, ["No external links to authoritative sources"])

/-- Flesch-Reading-Ease approximation of src/main.go lines 556-561, with the
sentence count floored to 1 and syllables approximated as 1.5 per word. -/
def fleschReadability (wordCount sentenceMarks : ℕ) : ℚ :=
  let sentences : ℕ := if sentenceMarks = 0 then 1 else sentenceMarks
  let syllables : ℚ := (wordCount : ℚ) * (3/2)
  206835/1000 - 1015/1000 * ((wordCount : ℚ) / (sentences : ℚ))
    - 846/10 * (syllables / (wordCount : ℚ))

/-- Readability check, src/main.go lines 555-569 (runs only when the word
count is positive). -/
def contentReadabilityCheck (wordCount sentenceMarks : ℕ) : ℚ × List String :=
  if 0 < wordCount then
    if 60 ≤ fleschReadability wordCount sentenceMarks then (10, [])
    else (5, ["Content may be difficult to read"])
  else (0, [])

/-- Paragraph-count credit, src/main.go lines 480-484. -/
def contentParagraphPoints (paragraphCount : ℕ) : ℚ :=
  if 5 ≤ paragraphCount then 10 else 0

/-- auditContentQuality, src/main.go lines 453-572. -/
def auditContentQuality (s : ContentSignals) : ContentQualityScore :=
  let words := contentWordCountCheck s.wordCount
  let alt := contentAltTextCheck s.imageCount s.imagesWithAlt
  let internal := contentInternalLinksCheck s.internalLinks
  let external := contentExternalLinksCheck s.externalLinks
  let readability := contentReadabilityCheck s.wordCount s.sentenceMarks
  { score := words.1 + contentParagraphPoints s.paragraphCount + alt.1 + internal.1
      + external.1 + readability.1
    maxScore := 100
    wordCount := s.wordCount
    paragraphCount := s.paragraphCount
    imageCount := s.imageCount
    imagesWithAlt := if 0 < s.imageCount then s.imagesWithAlt else 0
    internalLinks := s.internalLinks
    externalLinks := s.externalLinks
    readabilityScore :=
      if 0 < s.wordCount then fleschReadability s.wordCount s.sentenceMarks else 0
    issues := words.2 ++ alt.2 ++ internal.2 ++ external.2 ++ readability.2 }

/-- Link observations consumed by auditLinkStructure (src/main.go lines
575-672): the InnerText of every a[href] element whose href attribute is
non-empty (in document order), the internal/external classification counts
of the same loop, and the breadcrumb locator count. -/
structure LinkSignals where
  anchorTexts : List String
  internalLinks : ℕ
  externalLinks : ℕ
  breadcrumbCount : ℕ

/-- Descriptive-anchor predicate of src/main.go line 600, applied to a
trimmed non-empty anchor text (Go byte length modelled by String.length). -/
def isDescriptiveAnchor (text : String) : Bool :=
  let lowerText := text.toLower
  lowerText != "click here" && lowerText != "read more" && lowerText != "here"
    && 2 < text.length

/-- The trimmed non-empty anchor texts counted by the loop of src/main.go
lines 587-603. -/
def countedAnchors (anchorTexts : List String) : List String :=
  (anchorTexts.map String.trim).filter (fun text => text != "")

/-- totalAnchors accumulated by src/main.go line 598. -/
def totalAnchors (anchorTexts : List String) : ℕ :=
  (countedAnchors anchorTexts).length

/-- descriptiveAnchors accumulated by src/main.go line 601. -/
def descriptiveAnchors (anchorTexts : List String) : ℕ :=
  ((countedAnchors anchorTexts).filter isDescriptiveAnchor).length

/-- Internal-link tiering of auditLinkStructure, src/main.go lines 621-628. -/
def linkInternalCheck (internalLinks : ℕ) : ℚ × List String :=
  if 5 ≤ internalLinks then (25, [])
  else if 3 ≤ internalLinks then (15, [])
  else (5, ["Low internal link count (" ++ toString internalLinks ++ ")"])

/-- External-link tiering of auditLinkStructure, src/main.go lines 631-639. -/
def linkExternalCheck (externalLinks : ℕ) : ℚ × List String :=
  if 0 < externalLinks ∧ externalLinks ≤ 10 then (15, [])
  else if 10 < externalLinks then (10, ["High number of external links"])
  else (5, ["No external links"])

/-- Descriptive-anchor ratio check, src/main.go lines 642-654: with zero
counted anchors the branch awards a flat 15 points and no issue (line 653). -/
def linkDescriptiveAnchorsCheck (total descriptive : ℕ) : ℚ × List String :=
  if 0 < total then
    let descriptivePercentage : ℚ := (descriptive : ℚ) / (total : ℚ) * 100
    if 80 ≤ descriptivePercentage then (20, [])
    else (10, ["Many links have generic anchor text"])
  else (15, [])

/-- Breadcrumb check, src/main.go lines 657-664. -/
def linkBreadcrumbCheck (breadcrumbCount : ℕ) : ℚ × List String :=
  if 0 < breadcrumbCount then (20, []) else (0, ["No breadcrumb navigation found"])

/-- auditLinkStructure, src/main.go lines 575-672; the final +20 is the
documented broken-link no-op credit of line 669. -/
def auditLinkStructure (s : LinkSignals) : LinkStructureScore :=
  let total := totalAnchors s.anchorTexts
  let descriptive := descriptiveAnchors s.anchorTexts
  let internal := linkInternalCheck s.internalLinks
  let external := linkExternalCheck s.externalLinks
  let anchors := linkDescriptiveAnchorsCheck total descriptive
  let breadcrumbs := linkBreadcrumbCheck s.breadcrumbCount
  { score := internal.1 + external.1 + anchors.1 + breadcrumbs.1 + 20
    maxScore := 100
    internalLinks := s.internalLinks
    externalLinks := s.externalLinks
    brokenLinks := 0
    hasBreadcrumbs := decide (0 < s.breadcrumbCount)
    descriptiveAnchors :=
      decide (0 < total ∧ 80 ≤ (descriptive : ℚ) / (total : ℚ) * 100)
    issues := internal.2 ++ external.2 ++ anchors.2 ++ breadcrumbs.2 }

/-- Substring facts the schema loop tests on one JSON-LD script body via
strings.Contains (src/main.go lines 694-712): whether the raw content
contains the quoted "@type" key and each of the five recognized type names.
The six flags are mutually independent over arbitrary script contents. -/
structure SchemaBlockFlags where
  hasAtTypeKey : Bool
  mentionsOrganization : Bool
  mentionsBreadcrumbList : Bool
  mentionsArticle : Bool
  mentionsProduct : Bool
  mentionsLocalBusiness : Bool

/-- Observations consumed by auditSchemaMarkup (src/main.go lines 675-752):
one flag record per JSON-LD script block, plus the itemscope locator count. -/
structure SchemaSignals where
  jsonLdBlocks : List SchemaBlockFlags
  itemscopeCount : ℕ

/-- The SchemaTypes entries one block appends in the loop of src/main.go
lines 690-713 (one append per matched recognized type, in source order). -/
def blockSchemaTypes (b : SchemaBlockFlags) : List String :=
  if b.hasAtTypeKey then
    (if b.mentionsOrganization then ["Organization"] else [])
      ++ (if b.mentionsBreadcrumbList then ["BreadcrumbList"] else [])
      ++ (if b.mentionsArticle then ["Article"] else [])
      ++ (if b.mentionsProduct then ["Product"] else [])
      ++ (if b.mentionsLocalBusiness then ["LocalBusiness"] else [])
  else []

/-- The full SchemaTypes list accumulated over all JSON-LD blocks. -/
def schemaTypesOf (blocks : List SchemaBlockFlags) : List String :=
  (blocks.map blockSchemaTypes).flatten

/-- HasOrganization flag set by src/main.go lines 695-698. -/
def schemaHasOrganization (blocks : List SchemaBlockFlags) : Bool :=
  blocks.any (fun b => b.hasAtTypeKey && b.mentionsOrganization)

/-- HasBreadcrumb flag set by src/main.go lines 699-702. -/
def schemaHasBreadcrumb (blocks : List SchemaBlockFlags) : Bool :=
  blocks.any (fun b => b.hasAtTypeKey && b.mentionsBreadcrumbList)

/-- Tiered type bonus of auditSchemaMarkup, src/main.go lines 716-724,
applied to schemaTypeCount = len(score.SchemaTypes). -/
def schemaTypeBonus (schemaTypeCount : ℕ) : ℚ × List String :=
  if 3 ≤ schemaTypeCount then (40, [])
  else if schemaTypeCount = 2 then (30, [])
  else if schemaTypeCount = 1 then (20, ["Limited schema markup types"])
  else (0, [])

/-- Organization bonus of auditSchemaMarkup, src/main.go lines 727-731. -/
def schemaOrganizationCheck (hasOrganization : Bool) : ℚ × List String :=
  if hasOrganization then (15, []) else (0, ["Missing Organization schema"])

/-- BreadcrumbList bonus of auditSchemaMarkup, src/main.go lines 734-738. -/
def schemaBreadcrumbCheck (hasBreadcrumb : Bool) : ℚ × List String :=
  if hasBreadcrumb then (15, []) else (0, ["Missing BreadcrumbList schema"])

/-- auditSchemaMarkup, src/main.go lines 675-752, including the microdata
fallback of lines 744-749 which fires only when no JSON-LD block exists. -/
def auditSchemaMarkup (s : SchemaSignals) : SchemaMarkupScore :=
  if 0 < s.jsonLdBlocks.length then
    let types := schemaTypesOf s.jsonLdBlocks
    let hasOrganization := schemaHasOrganization s.jsonLdBlocks
    let hasBreadcrumb := schemaHasBreadcrumb s.jsonLdBlocks
    let bonus := schemaTypeBonus types.length
    let organization := schemaOrganizationCheck hasOrganization
    let breadcrumb := schemaBreadcrumbCheck hasBreadcrumb
    { score := 30 + bonus.1 + organization.1 + breadcrumb.1
      maxScore := 100
      hasSchema := true
      schemaTypes := types
      hasOrganization := hasOrganization
      hasBreadcrumb := hasBreadcrumb
      issues := bonus.2 ++ organization.2 ++ breadcrumb.2 }
  else if 0 < s.itemscopeCount then
    { score := 20
      maxScore := 100
      hasSchema := true
      schemaTypes := []
      hasOrganization := false
      hasBreadcrumb := false
      issues := ["No structured data (schema markup) found",
        "Using microdata instead of JSON-LD (JSON-LD is preferred)"] }
  else
    { score := 0
      maxScore := 100
      hasSchema := false
      schemaTypes := []
      hasOrganization := false
      hasBreadcrumb := false
      issues := ["No structured data (schema markup) found"] }

/-- Observations consumed by auditSecurity (src/main.go lines 755-803):
the URL scheme and the locator counts of http:// sub-resources. -/
structure SecuritySignals where
  scheme : String
  httpImageCount : ℕ
  httpScriptCount : ℕ
  httpLinkCount : ℕ

/-- HTTPS check of auditSecurity, src/main.go lines 764-771. -/
def securityHTTPSCheck (isHTTPS : Bool) : ℚ × List String :=
  if isHTTPS then (40, []) else (0, ["Site is not using HTTPS"])

/-- Mixed-content check, src/main.go lines 774-790: only probed on HTTPS
pages; a non-HTTPS page takes the flat 15-point substitute. -/
def securityMixedContentCheck (isHTTPS mixedContent : Bool) : ℚ × List String :=
  if isHTTPS then
    if ¬ mixedContent then (30, [])
    else (10, ["Mixed content detected (HTTP resources on HTTPS page)"])
  else (15, [])

/-- Security-header placeholder check, src/main.go lines 792-800: the flag
is hard-coded false, so the partial 15 credit and issue always apply. -/
def securityHeadersCheck : ℚ × List String :=
  (15, ["Unable to verify security headers"])

/-- auditSecurity, src/main.go lines 755-803.  HasSecurityHeaders is the
hard-coded false placeholder of line 794, so the header check always adds
the partial 15 credit with its issue. -/
def auditSecurity (s : SecuritySignals) : SecurityScore :=
  let isHTTPS := s.scheme = "https"
  let mixedContent :=
    0 < s.httpImageCount ∨ 0 < s.httpScriptCount ∨ 0 < s.httpLinkCount
  let https := securityHTTPSCheck (decide isHTTPS)
  let mixed := securityMixedContentCheck (decide isHTTPS) (decide mixedContent)
  let headers := securityHeadersCheck
  { score := https.1 + mixed.1 + headers.1
    maxScore := 100
    isHTTPS := decide isHTTPS
    hasSSL := decide isHTTPS
    mixedContent := decide isHTTPS && decide mixedContent
    hasSecurityHeaders := false
    issues := https.2 ++ mixed.2 ++ headers.2 }

/-- Observations consumed by auditUserExperience (src/main.go lines
806-860): locator counts and the computed body font-size string (none when
the Evaluate result is nil). -/
structure UXSignals where
  faviconCount : ℕ
  langCount : ℕ
  bodyFontSize : Option String
  modalCount : ℕ

/-- Font-size check of src/main.go lines 833-846: with a measured font-size
string, readable means not starting with "1" or lexicographically at least
"14px" (Go byte-wise string comparison modelled by the String order); with
no measurement the branch awards a flat 15 points. -/
def uxFontSizeCheck (bodyFontSize : Option String) : ℚ × List String :=
  match bodyFontSize with
  | some fontSize =>
    if ¬ fontSize.startsWith "1" ∨ "14px" ≤ fontSize then (25, [])
    else (10, ["Font size may be too small for comfortable reading"])
  | none => (15, [])

/-- Favicon check, src/main.go lines 813-820. -/
def uxFaviconCheck (faviconCount : ℕ) : ℚ × List String :=
  if 0 < faviconCount then (20, []) else (0, ["Missing favicon"])

/-- Lang-attribute check, src/main.go lines 823-830. -/
def uxLangCheck (langCount : ℕ) : ℚ × List String :=
  if 0 < langCount then (25, []) else (0, ["Missing lang attribute on html tag"])

/-- Popup check, src/main.go lines 849-857. -/
def uxPopupCheck (modalCount : ℕ) : ℚ × List String :=
  if modalCount = 0 then (30, []) else (15, ["Intrusive popups detected"])

/-- auditUserExperience, src/main.go lines 806-860. -/
def auditUserExperience (s : UXSignals) : UserExperienceScore :=
  let favicon := uxFaviconCheck s.faviconCount
  let lang := uxLangCheck s.langCount
  let fontSize := uxFontSizeCheck s.bodyFontSize
  let popups := uxPopupCheck s.modalCount
  { score := favicon.1 + lang.1 + fontSize.1 + popups.1
    maxScore := 100
    hasFavicon := decide (0 < s.faviconCount)
    fontSizeReadable :=
      match s.bodyFontSize with
      | some fontSize => decide (¬ fontSize.startsWith "1" ∨ "14px" ≤ fontSize)
      | none => false
    hasLangAttribute := decide (0 < s.langCount)
    noIntrusivePopups := decide (s.modalCount = 0)
    issues := favicon.2 ++ lang.2 ++ fontSize.2 ++ popups.2 }

/-- The typed view of the metrics payload auditWebVitals collects from the
page (src/main.go lines 922-933): an optional captured value per web-vitals
metric (none when the key is absent or its dynamic type assertion fails),
plus the always-present navigation/resource figures. -/
structure PerfSignals where
  lcp : Option ℤ
  fcp : Option ℤ
  cls : Option ℚ
  inp : Option ℚ
  ttfb : Option ℚ
  domContentLoaded : ℚ
  domComplete : ℚ
  transferSize : ℕ
  resourceCount : ℕ

/-- math.Round(cls*1000)/1000, the 3-decimal rounding of src/main.go line 954. -/
def round3 (x : ℚ) : ℚ := (goRound (x * 1000) : ℚ) / 1000

/-- Value stored for an int-typed metric captured with a positive value
(src/main.go lines 938-941, 947-950); zero otherwise. -/
def capturedInt (o : Option ℤ) : ℤ :=
  match o with
  | some v => if 0 < v then v else 0
  | none => 0

/-- Rating stored for an int-typed metric captured with a positive value;
the empty string otherwise. -/
def capturedIntRating (o : Option ℤ) (rate : ℤ → String) : String :=
  match o with
  | some v => if 0 < v then rate v else ""
  | none => ""

/-- Value stored for a float-typed metric captured with a positive value
(src/main.go lines 962-965, 971-974); zero otherwise. -/
def capturedRat (o : Option ℚ) : ℚ :=
  match o with
  | some v => if 0 < v then v else 0
  | none => 0

/-- Rating stored for a float-typed metric captured with a positive value;
the empty string otherwise. -/
def capturedRatRating (o : Option ℚ) (rate : ℚ → String) : String :=
  match o with
  | some v => if 0 < v then rate v else ""
  | none => ""

/-- CLS value stored whenever CLS was captured, at any value, rounded to 3
decimals (src/main.go lines 953-955); zero otherwise. -/
def clsCaptured (o : Option ℚ) : ℚ :=
  match o with
  | some cls => round3 cls
  | none => 0

/-- CLS rating stored whenever CLS was captured, rating the raw value; the
empty string otherwise. -/
def clsCapturedRating (o : Option ℚ) : String :=
  match o with
  | some cls => rateCLS cls
  | none => ""

/-- The field extraction of auditWebVitals, src/main.go lines 935-991: LCP,
FCP, INP and TTFB are stored and rated only when captured with a positive
value; CLS is stored (rounded to 3 decimals) and rated whenever captured,
at any value; an unset metric leaves its zero value and empty rating. -/
def extractWebVitals (p : PerfSignals) : WebVitalsScore :=
  { score := 0
    maxScore := 100
    lcp := capturedInt p.lcp
    lcpRating := capturedIntRating p.lcp rateLCP
    fcp := capturedInt p.fcp
    fcpRating := capturedIntRating p.fcp rateFCP
    cls := clsCaptured p.cls
    clsRating := clsCapturedRating p.cls
    inp := capturedRat p.inp
    inpRating := capturedRatRating p.inp rateINP
    ttfb := capturedRat p.ttfb
    ttfbRating := capturedRatRating p.ttfb rateTTFB
    domContentLoaded := p.domContentLoaded
    domComplete := p.domComplete
    transferSize := p.transferSize
    resourceCount := p.resourceCount
    issues := [] }

/-- The per-metric switch of calculateWebVitalsScore (src/main.go lines
1094-1151): good adds the full 20, needs-improvement 20x0.6, poor 20x0.2,
and any other rating string (including the empty unset rating) adds 0. -/
def ratingPoints (rating : String) : ℚ :=
  if rating = "good" then 20
  else if rating = "needs-improvement" then 20 * (6/10)
  else if rating = "poor" then 20 * (2/10)
  else 0

/-- calculateWebVitalsScore, src/main.go lines 1086-1161: LCP/FCP/INP/TTFB
are counted and scored only when their stored value is positive, CLS is
always counted, and with fewer than 5 counted metrics the raw score is
renormalized to score/(metricCount*20)*100. -/
def calculateWebVitalsScore (wv : WebVitalsScore) : ℚ :=
  let metricCount : ℕ :=
    (if 0 < wv.lcp then 1 else 0) + (if 0 < wv.fcp then 1 else 0) + 1
      + (if 0 < wv.inp then 1 else 0) + (if 0 < wv.ttfb then 1 else 0)
  let rawScore : ℚ :=
    (if 0 < wv.lcp then ratingPoints wv.lcpRating else 0)
      + (if 0 < wv.fcp then ratingPoints wv.fcpRating else 0)
      + ratingPoints wv.clsRating
      + (if 0 < wv.inp then ratingPoints wv.inpRating else 0)
      + (if 0 < wv.ttfb then ratingPoints wv.ttfbRating else 0)
  if 0 < metricCount ∧ metricCount < 5 then
    rawScore / ((metricCount : ℚ) * 20) * 100
  else rawScore

/-- The rating-driven issue strings appended by auditWebVitals after scoring
(src/main.go lines 997-1035; numeric and byte-size rendering abstracted by
toString). -/
def webVitalsIssues (wv : WebVitalsScore) : List String :=
  (if wv.lcpRating = "poor" then
      ["LCP is poor (" ++ toString wv.lcp ++ "ms) - should be under 2500ms"]
    else if wv.lcpRating = "needs-improvement" then
      ["LCP needs improvement (" ++ toString wv.lcp ++ "ms) - aim for under 2500ms"]
    else [])
  ++ (if wv.fcpRating = "poor" then
      ["FCP is poor (" ++ toString wv.fcp ++ "ms) - should be under 1800ms"]
    else if wv.fcpRating = "needs-improvement" then
      ["FCP needs improvement (" ++ toString wv.fcp ++ "ms) - aim for under 1800ms"]
    else [])
  ++ (if wv.clsRating = "poor" then
      ["CLS is poor (" ++ toString wv.cls ++ ") - should be under 0.1"]
    else if wv.clsRating = "needs-improvement" then
      ["CLS needs improvement (" ++ toString wv.cls ++ ") - aim for under 0.1"]
    else [])
  ++ (if 0 < wv.inp then
      (if wv.inpRating = "poor" then
        ["INP is poor (" ++ toString wv.inp ++ "ms) - should be under 200ms"]
      else if wv.inpRating = "needs-improvement" then
        ["INP needs improvement (" ++ toString wv.inp ++ "ms) - aim for under 200ms"]
      else [])
    else [])
  ++ (if wv.ttfbRating = "poor" then
      ["TTFB is poor (" ++ toString wv.ttfb ++ "ms) - should be under 800ms"]
    else if wv.ttfbRating = "needs-improvement" then
      ["TTFB needs improvement (" ++ toString wv.ttfb ++ "ms) - aim for under 800ms"]
    else [])
  ++ (if 100 < wv.resourceCount then
      ["High number of resources loaded (" ++ toString wv.resourceCount
        ++ ") - consider reducing HTTP requests"]
    else [])
  ++ (if 5 * 1024 * 1024 < wv.transferSize then
      ["Large total transfer size (" ++ toString wv.transferSize
        ++ ") - consider optimizing assets"]
    else [])

/-- auditWebVitals on the successful script-injection path, src/main.go
lines 863-1037: extract the typed metrics, score them, then append the
rating-driven issues. -/
def auditWebVitals (p : PerfSignals) : WebVitalsScore :=
  let wv := extractWebVitals p
  let wv := { wv with score := calculateWebVitalsScore wv }
  { wv with issues := wv.issues ++ webVitalsIssues wv }

/-- Critical marker prepended when TechnicalSEO.Score < 50 (src/main.go line 1277). -/
def criticalTechnicalMarker : String := "CRITICAL: Address technical SEO issues immediately"

/-- Critical marker prepended when the site is not HTTPS (src/main.go line 1280). -/
def criticalHTTPSMarker : String := "CRITICAL: Implement HTTPS for security and SEO"

/-- Critical marker prepended when the title tag is missing (src/main.go line 1283). -/
def criticalTitleMarker : String := "CRITICAL: Add a title tag to the page"

/-- generateRecommendations, src/main.go lines 1262-1287: concatenate the
eight issue lists, then conditionally prepend the three critical markers
in source order. -/
def generateRecommendations (audit : SEOAudit) : List String :=
  let recs :=
    audit.technicalSEO.issues ++ audit.onPageSEO.issues ++ audit.contentQuality.issues
      ++ audit.linkStructure.issues ++ audit.schemaMarkup.issues ++ audit.security.issues
      ++ audit.userExperience.issues ++ audit.webVitals.issues
  let recs := if audit.technicalSEO.score < 50 then criticalTechnicalMarker :: recs else recs
  let recs := if ¬ audit.security.isHTTPS then criticalHTTPSMarker :: recs else recs
  let recs := if ¬ audit.onPageSEO.hasTitle then criticalTitleMarker :: recs else recs
  recs

/-- The spec-side rating tier points: good=20, needs-improvement=12, poor=4
(section 4.2 of the design; amended to leave an unset rating at 0). -/
def specTierPoints (rating : String) : ℚ :=
  if rating = "good" then 20
  else if rating = "needs-improvement" then 12
  else if rating = "poor" then 4
  else 0

/-- Spec-side contribution of an int-typed metric: counted with its tier
points exactly when captured positive. -/
def specIntContribution (o : Option ℤ) (rate : ℤ → String) : List ℚ :=
  match o with
  | some v => if 0 < v then [specTierPoints (rate v)] else []
  | none => []

/-- Spec-side contribution of a float-typed metric: counted with its tier
points exactly when captured positive. -/
def specRatContribution (o : Option ℚ) (rate : ℚ → String) : List ℚ :=
  match o with
  | some v => if 0 < v then [specTierPoints (rate v)] else []
  | none => []

/-- Spec-side CLS contribution: CLS is always counted; it contributes the
tier points of its captured value, or 0 when unmeasured. -/
def specCLSContribution (o : Option ℚ) : ℚ :=
  match o with
  | some cls => specTierPoints (rateCLS cls)
  | none => 0

/-- The amended spec formula for the web-vitals score, stated directly over
the captured metrics: LCP, FCP, INP and TTFB are counted exactly when a
positive value was captured and then contribute by the rating tier of that
value; CLS is always counted but contributes its tier points only when a
CLS value was captured (an unmeasured CLS is left unrated and contributes
0); finalScore = rawScore / (capturedCount x 20) x 100 when fewer than 5
metrics were captured. -/
def specWebVitalsScore (p : PerfSignals) : ℚ :=
  let contributions : List ℚ :=
    specIntContribution p.lcp rateLCP ++ specIntContribution p.fcp rateFCP
      ++ [specCLSContribution p.cls] ++ specRatContribution p.inp rateINP
      ++ specRatContribution p.ttfb rateTTFB
  let capturedCount : ℕ := contributions.length
  let rawScore : ℚ := contributions.sum
  if capturedCount < 5 then rawScore / ((capturedCount : ℚ) * 20) * 100
  else rawScore

/-- Number of recognized schema types one block matches (one per recognized
type contained, gated by the quoted "@type" key), the spec-side counterpart
of blockSchemaTypes. -/
def blockRecognizedTypeCount (b : SchemaBlockFlags) : ℕ :=
  if b.hasAtTypeKey then
    (if b.mentionsOrganization then 1 else 0)
      + (if b.mentionsBreadcrumbList then 1 else 0)
      + (if b.mentionsArticle then 1 else 0)
      + (if b.mentionsProduct then 1 else 0)
      + (if b.mentionsLocalBusiness then 1 else 0)
  else 0

/-- Total recognized-type detections over all JSON-LD blocks, counted once
per block per recognized type, without deduplication across blocks. -/
def totalTypeMatches (blocks : List SchemaBlockFlags) : ℕ :=
  (blocks.map blockRecognizedTypeCount).sum

/-- Perf snapshot where only CLS was captured, at 0.05 (Example 6). -/
def clsOnlyPerf : PerfSignals :=
  { lcp := none, fcp := none, cls := some (5/100), inp := none, ttfb := none
    domContentLoaded := 0, domComplete := 0, transferSize := 0, resourceCount := 0 }

/-- Perf snapshot where no web-vitals metric at all was captured. -/
def noMetricsPerf : PerfSignals :=
  { lcp := none, fcp := none, cls := none, inp := none, ttfb := none
    domContentLoaded := 0, domComplete := 0, transferSize := 0, resourceCount := 0 }

/-- A JSON-LD block whose content contains the quoted "@type" key and the
recognized type name Article, and none of the other recognized names. -/
def articleOnlyBlock : SchemaBlockFlags :=
  { hasAtTypeKey := true, mentionsOrganization := false, mentionsBreadcrumbList := false
    mentionsArticle := true, mentionsProduct := false, mentionsLocalBusiness := false }

/-- Two JSON-LD blocks both mentioning only the recognized type Article:
one distinct recognized type across the blocks together. -/
def duplicateArticleSignals : SchemaSignals :=
  { jsonLdBlocks := [articleOnlyBlock, articleOnlyBlock], itemscopeCount := 0 }

/-- On-page signals where every on-page check passes at its maximal award:
a 55-character title, a 154-character meta description, exactly one H1,
an H2, a proper hierarchy, the full Open Graph triple, a Twitter card and
a canonical tag. -/
def perfectOnPageSignals : OnPageSignals :=
  { title := "Great Example Page Title For The Audit Tool Demo 12345!"
    metaDescription := "This meta description is deliberately padded so that its byte length lands inside the optimal one hundred fifty to one hundred sixty character band okay!!"
    h1Count := 1, h2Count := 2, h3Count := 0, h4Count := 0, h5Count := 0, h6Count := 0
    ogTitleCount := 1, ogDescCount := 1, ogImageCount := 1
    twitterCardCount := 1, canonicalCount := 1 }

/-- Content signals of a page with no images at all. -/
def noImagesContentSignals : ContentSignals :=
  { wordCount := 120, sentenceMarks := 8, paragraphCount := 2, imageCount := 0
    imagesWithAlt := 0, internalLinks := 1, externalLinks := 0 }

/-- Link signals of a page with no anchors carrying non-empty text. -/
def noAnchorTextLinkSignals : LinkSignals :=
  { anchorTexts := [], internalLinks := 2, externalLinks := 1, breadcrumbCount := 0 }

/-- A fixed audit whose web-vitals slot is the only varying input, used to
compare aggregation runs that differ solely in the performance category. -/
def baseAudit (wv : WebVitalsScore) : SEOAudit :=
  { url := "https://example.com"
    technicalSEO :=
      { score := 80, maxScore := 100, loadTime := 1500, pageSize := 1000
        httpRequests := 10, hasRobotsTxt := true, hasSitemap := true, isHTTPS := true
        isMobileFriendly := true, hasViewport := true, httpStatusCode := 200, issues := [] }
    onPageSEO :=
      { score := 75, maxScore := 100, hasTitle := true, titleLength := 55
        hasMetaDescription := true, metaDescriptionLength := 154, hasH1 := true
        h1Count := 1, h2Count := 2, hasOGTags := true, hasTwitterCard := true
        hasCanonical := true, keywordInTitle := true, properHeadingHierarchy := true
        issues := [] }
    contentQuality :=
      { score := 60, maxScore := 100, wordCount := 800, paragraphCount := 9
        imageCount := 4, imagesWithAlt := 4, internalLinks := 5, externalLinks := 2
        readabilityScore := 70, issues := ["Content length is moderate (500-1000 words)"] }
    linkStructure :=
      { score := 85, maxScore := 100, internalLinks := 6, externalLinks := 2
        brokenLinks := 0, hasBreadcrumbs := false, descriptiveAnchors := true
        issues := ["No breadcrumb navigation found"] }
    schemaMarkup :=
      { score := 60, maxScore := 100, hasSchema := true, schemaTypes := ["Article"]
        hasOrganization := false, hasBreadcrumb := false
        issues := ["Limited schema markup types"] }
    security :=
      { score := 85, maxScore := 100, isHTTPS := true, hasSSL := true
        mixedContent := false, hasSecurityHeaders := false
        issues := ["Unable to verify security headers"] }
    userExperience :=
      { score := 100, maxScore := 100, hasFavicon := true, fontSizeReadable := true
        hasLangAttribute := true, noIntrusivePopups := true, issues := [] }
    webVitals := wv }

/-- One arbitrary web-vitals result for the aggregation comparison. -/
def sampleWebVitalsA : WebVitalsScore :=
  { score := 100, maxScore := 100, lcp := 1200, lcpRating := "good"
    fcp := 900, fcpRating := "good", cls := 1/20, clsRating := "good"
    inp := 150, inpRating := "good", ttfb := 300, ttfbRating := "good"
    domContentLoaded := 800, domComplete := 1000, transferSize := 200000
    resourceCount := 30, issues := [] }

/-- A second, very different web-vitals result for the comparison. -/
def sampleWebVitalsB : WebVitalsScore :=
  { score := 20, maxScore := 100, lcp := 6000, lcpRating := "poor"
    fcp := 4000, fcpRating := "poor", cls := 1/2, clsRating := "poor"
    inp := 900, inpRating := "poor", ttfb := 2500, ttfbRating := "poor"
    domContentLoaded := 3000, domComplete := 9000, transferSize := 9000000
    resourceCount := 180
    issues := ["LCP is poor (6000ms) - should be under 2500ms"] }

/-- C1: for every audit, the overall score is the 2-decimal rounding of the
weighted sum of the seven mandatory category percentages (score/maxScore x
100) under the fixed weights technical 0.30, on-page 0.25, content 0.20,
links 0.10, schema 0.05, security 0.05, ux 0.05, and those weights sum to
exactly 1. -/
theorem overallScore_is_weighted_sum :
    (∀ a : SEOAudit,
      calculateOverallScore a =
        round2 ((([(a.technicalSEO.score, a.technicalSEO.maxScore, (30 : ℚ)/100),
            (a.onPageSEO.score, a.onPageSEO.maxScore, 25/100),
            (a.contentQuality.score, a.contentQuality.maxScore, 20/100),
            (a.linkStructure.score, a.linkStructure.maxScore, 10/100),
            (a.schemaMarkup.score, a.schemaMarkup.maxScore, 5/100),
            (a.security.score, a.security.maxScore, 5/100),
            (a.userExperience.score, a.userExperience.maxScore, 5/100)] :
              List (ℚ × ℚ × ℚ)).map
            (fun c => c.1 / c.2.1 * 100 * c.2.2)).sum)) ∧
    weights "technical" + weights "onpage" + weights "content" + weights "links"
      + weights "schema" + weights "security" + weights "ux" = 1 := by
  constructor
  · intro a
    unfold calculateOverallScore
    congr 1
    simp [weights]
    ring
  · simp [weights]
    norm_num

set_option maxHeartbeats 1600000 in
/-- C3: the grader maps every rational score to one of the 12 grades by the
non-overlapping descending breakpoints of the spec, and on the example
inputs 82.3, 39.99 and 90.00 it returns A-, F and A+. -/
theorem grade_breakpoints :
    (∀ x : ℚ,
      (calculateGrade x = "A+" ↔ 90 ≤ x) ∧
      (calculateGrade x = "A" ↔ 85 ≤ x ∧ x < 90) ∧
      (calculateGrade x = "A-" ↔ 80 ≤ x ∧ x < 85) ∧
      (calculateGrade x = "B+" ↔ 75 ≤ x ∧ x < 80) ∧
      (calculateGrade x = "B" ↔ 70 ≤ x ∧ x < 75) ∧
      (calculateGrade x = "B-" ↔ 65 ≤ x ∧ x < 70) ∧
      (calculateGrade x = "C+" ↔ 60 ≤ x ∧ x < 65) ∧
      (calculateGrade x = "C" ↔ 55 ≤ x ∧ x < 60) ∧
      (calculateGrade x = "C-" ↔ 50 ≤ x ∧ x < 55) ∧
      (calculateGrade x = "D+" ↔ 45 ≤ x ∧ x < 50) ∧
      (calculateGrade x = "D" ↔ 40 ≤ x ∧ x < 45) ∧
      (calculateGrade x = "F" ↔ x < 40)) ∧
    calculateGrade (823/10) = "A-" ∧
    calculateGrade (3999/100) = "F" ∧
    calculateGrade 90 = "A+" := by
  refine ⟨fun x => ?_, by norm_num [calculateGrade], by norm_num [calculateGrade],
    by norm_num [calculateGrade]⟩
  unfold calculateGrade
  split_ifs <;>
    refine ⟨?_, ?_, ?_, ?_, ?_, ?_, ?_, ?_, ?_, ?_, ?_, ?_⟩ <;>
    constructor <;>
    intro hh <;>
    first
      | rfl
      | (simp at hh; done)
      | linarith
      | (constructor <;> linarith)
      | (exfalso; obtain ⟨ha, hb⟩ := hh; linarith)
      | (exfalso; linarith)

/-- The grade ordinal of a score as one descending threshold chain. -/
lemma gradeOrd_calculateGrade (z : ℚ) :
    gradeOrd (calculateGrade z) = gradeLadder z := by
  by_cases h1 : 90 ≤ z
  · simp [calculateGrade, gradeLadder, gradeOrd, h1]
  by_cases h2 : 85 ≤ z
  · simp [calculateGrade, gradeLadder, gradeOrd, h1, h2]
  by_cases h3 : 80 ≤ z
  · simp [calculateGrade, gradeLadder, gradeOrd, h1, h2, h3]
  by_cases h4 : 75 ≤ z
  · simp [calculateGrade, gradeLadder, gradeOrd, h1, h2, h3, h4]
  by_cases h5 : 70 ≤ z
  · simp [calculateGrade, gradeLadder, gradeOrd, h1, h2, h3, h4, h5]
  by_cases h6 : 65 ≤ z
  · simp [calculateGrade, gradeLadder, gradeOrd, h1, h2, h3, h4, h5, h6]
  by_cases h7 : 60 ≤ z
  · simp [calculateGrade, gradeLadder, gradeOrd, h1, h2, h3, h4, h5, h6, h7]
  by_cases h8 : 55 ≤ z
  · simp [calculateGrade, gradeLadder, gradeOrd, h1, h2, h3, h4, h5, h6, h7, h8]
  by_cases h9 : 50 ≤ z
  · simp [calculateGrade, gradeLadder, gradeOrd, h1, h2, h3, h4, h5, h6, h7, h8, h9]
  by_cases h10 : 45 ≤ z
  · simp [calculateGrade, gradeLadder, gradeOrd, h1, h2, h3, h4, h5, h6, h7, h8, h9, h10]
  by_cases h11 : 40 ≤ z
  · simp [calculateGrade, gradeLadder, gradeOrd, h1, h2, h3, h4, h5, h6, h7, h8, h9, h10, h11]
  · simp [calculateGrade, gradeLadder, gradeOrd, h1, h2, h3, h4, h5, h6, h7, h8, h9, h10, h11]

lemma gradeLadder_ge_11 (y : ℚ) (h : 90 ≤ y) : 11 ≤ gradeLadder y := by
  simp [gradeLadder, h]

lemma gradeLadder_ge_10 (y : ℚ) (h : 85 ≤ y) : 10 ≤ gradeLadder y := by
  by_cases hup : 90 ≤ y
  · exact le_trans (by omega) (gradeLadder_ge_11 y hup)
  · simp [gradeLadder, hup, h]

lemma gradeLadder_ge_9 (y : ℚ) (h : 80 ≤ y) : 9 ≤ gradeLadder y := by
  by_cases hup : 85 ≤ y
  · exact le_trans (by omega) (gradeLadder_ge_10 y hup)
  · have ha0 : ¬ 90 ≤ y := fun hc => hup (by linarith)
    simp [gradeLadder, ha0, hup, h]

lemma gradeLadder_ge_8 (y : ℚ) (h : 75 ≤ y) : 8 ≤ gradeLadder y := by
  by_cases hup : 80 ≤ y
  · exact le_trans (by omega) (gradeLadder_ge_9 y hup)
  · have ha0 : ¬ 90 ≤ y := fun hc => hup (by linarith)
    have ha1 : ¬ 85 ≤ y := fun hc => hup (by linarith)
    simp [gradeLadder, ha0, ha1, hup, h]

lemma gradeLadder_ge_7 (y : ℚ) (h : 70 ≤ y) : 7 ≤ gradeLadder y := by
  by_cases hup : 75 ≤ y
  · exact le_trans (by omega) (gradeLadder_ge_8 y hup)
  · have ha0 : ¬ 90 ≤ y := fun hc => hup (by linarith)
    have ha1 : ¬ 85 ≤ y := fun hc => hup (by linarith)
    have ha2 : ¬ 80 ≤ y := fun hc => hup (by linarith)
    simp [gradeLadder, ha0, ha1, ha2, hup, h]

lemma gradeLadder_ge_6 (y : ℚ) (h : 65 ≤ y) : 6 ≤ gradeLadder y := by
  by_cases hup : 70 ≤ y
  · exact le_trans (by omega) (gradeLadder_ge_7 y hup)
  · have ha0 : ¬ 90 ≤ y := fun hc => hup (by linarith)
    have ha1 : ¬ 85 ≤ y := fun hc => hup (by linarith)
    have ha2 : ¬ 80 ≤ y := fun hc => hup (by linarith)
    have ha3 : ¬ 75 ≤ y := fun hc => hup (by linarith)
    simp [gradeLadder, ha0, ha1, ha2, ha3, hup, h]

lemma gradeLadder_ge_5 (y : ℚ) (h : 60 ≤ y) : 5 ≤ gradeLadder y := by
  by_cases hup : 65 ≤ y
  · exact le_trans (by omega) (gradeLadder_ge_6 y hup)
  · have ha0 : ¬ 90 ≤ y := fun hc => hup (by linarith)
    have ha1 : ¬ 85 ≤ y := fun hc => hup (by linarith)
    have ha2 : ¬ 80 ≤ y := fun hc => hup (by linarith)
    have ha3 : ¬ 75 ≤ y := fun hc => hup (by linarith)
    have ha4 : ¬ 70 ≤ y := fun hc => hup (by linarith)
    simp [gradeLadder, ha0, ha1, ha2, ha3, ha4, hup, h]

lemma gradeLadder_ge_4 (y : ℚ) (h : 55 ≤ y) : 4 ≤ gradeLadder y := by
  by_cases hup : 60 ≤ y
  · exact le_trans (by omega) (gradeLadder_ge_5 y hup)
  · have ha0 : ¬ 90 ≤ y := fun hc => hup (by linarith)
    have ha1 : ¬ 85 ≤ y := fun hc => hup (by linarith)
    have ha2 : ¬ 80 ≤ y := fun hc => hup (by linarith)
    have ha3 : ¬ 75 ≤ y := fun hc => hup (by linarith)
    have ha4 : ¬ 70 ≤ y := fun hc => hup (by linarith)
    have ha5 : ¬ 65 ≤ y := fun hc => hup (by linarith)
    simp [gradeLadder, ha0, ha1, ha2, ha3, ha4, ha5, hup, h]

lemma gradeLadder_ge_3 (y : ℚ) (h : 50 ≤ y) : 3 ≤ gradeLadder y := by
  by_cases hup : 55 ≤ y
  · exact le_trans (by omega) (gradeLadder_ge_4 y hup)
  · have ha0 : ¬ 90 ≤ y := fun hc => hup (by linarith)
    have ha1 : ¬ 85 ≤ y := fun hc => hup (by linarith)
    have ha2 : ¬ 80 ≤ y := fun hc => hup (by linarith)
    have ha3 : ¬ 75 ≤ y := fun hc => hup (by linarith)
    have ha4 : ¬ 70 ≤ y := fun hc => hup (by linarith)
    have ha5 : ¬ 65 ≤ y := fun hc => hup (by linarith)
    have ha6 : ¬ 60 ≤ y := fun hc => hup (by linarith)
    simp [gradeLadder, ha0, ha1, ha2, ha3, ha4, ha5, ha6, hup, h]

lemma gradeLadder_ge_2 (y : ℚ) (h : 45 ≤ y) : 2 ≤ gradeLadder y := by
  by_cases hup : 50 ≤ y
  · exact le_trans (by omega) (gradeLadder_ge_3 y hup)
  · have ha0 : ¬ 90 ≤ y := fun hc => hup (by linarith)
    have ha1 : ¬ 85 ≤ y := fun hc => hup (by linarith)
    have ha2 : ¬ 80 ≤ y := fun hc => hup (by linarith)
    have ha3 : ¬ 75 ≤ y := fun hc => hup (by linarith)
    have ha4 : ¬ 70 ≤ y := fun hc => hup (by linarith)
    have ha5 : ¬ 65 ≤ y := fun hc => hup (by linarith)
    have ha6 : ¬ 60 ≤ y := fun hc => hup (by linarith)
    have ha7 : ¬ 55 ≤ y := fun hc => hup (by linarith)
    simp [gradeLadder, ha0, ha1, ha2, ha3, ha4, ha5, ha6, ha7, hup, h]

lemma gradeLadder_ge_1 (y : ℚ) (h : 40 ≤ y) : 1 ≤ gradeLadder y := by
  by_cases hup : 45 ≤ y
  · exact le_trans (by omega) (gradeLadder_ge_2 y hup)
  · have ha0 : ¬ 90 ≤ y := fun hc => hup (by linarith)
    have ha1 : ¬ 85 ≤ y := fun hc => hup (by linarith)
    have ha2 : ¬ 80 ≤ y := fun hc => hup (by linarith)
    have ha3 : ¬ 75 ≤ y := fun hc => hup (by linarith)
    have ha4 : ¬ 70 ≤ y := fun hc => hup (by linarith)
    have ha5 : ¬ 65 ≤ y := fun hc => hup (by linarith)
    have ha6 : ¬ 60 ≤ y := fun hc => hup (by linarith)
    have ha7 : ¬ 55 ≤ y := fun hc => hup (by linarith)
    have ha8 : ¬ 50 ≤ y := fun hc => hup (by linarith)
    simp [gradeLadder, ha0, ha1, ha2, ha3, ha4, ha5, ha6, ha7, ha8, hup, h]

set_option maxHeartbeats 800000 in
/-- C4: the grader is monotonic on the 12-value ordinal scale: a larger
overall score never gets a smaller grade ordinal. -/
theorem grade_monotone :
    ∀ x y : ℚ, x ≤ y → gradeOrd (calculateGrade x) ≤ gradeOrd (calculateGrade y) := by
  intro x y h
  rw [gradeOrd_calculateGrade, gradeOrd_calculateGrade]
  by_cases h1 : 90 ≤ x
  · have hx : gradeLadder x = 11 := by simp [gradeLadder, h1]
    rw [hx]
    exact gradeLadder_ge_11 y (by linarith)
  by_cases h2 : 85 ≤ x
  · have hx : gradeLadder x = 10 := by simp [gradeLadder, h1, h2]
    rw [hx]
    exact gradeLadder_ge_10 y (by linarith)
  by_cases h3 : 80 ≤ x
  · have hx : gradeLadder x = 9 := by simp [gradeLadder, h1, h2, h3]
    rw [hx]
    exact gradeLadder_ge_9 y (by linarith)
  by_cases h4 : 75 ≤ x
  · have hx : gradeLadder x = 8 := by simp [gradeLadder, h1, h2, h3, h4]
    rw [hx]
    exact gradeLadder_ge_8 y (by linarith)
  by_cases h5 : 70 ≤ x
  · have hx : gradeLadder x = 7 := by simp [gradeLadder, h1, h2, h3, h4, h5]
    rw [hx]
    exact gradeLadder_ge_7 y (by linarith)
  by_cases h6 : 65 ≤ x
  · have hx : gradeLadder x = 6 := by simp [gradeLadder, h1, h2, h3, h4, h5, h6]
    rw [hx]
    exact gradeLadder_ge_6 y (by linarith)
  by_cases h7 : 60 ≤ x
  · have hx : gradeLadder x = 5 := by simp [gradeLadder, h1, h2, h3, h4, h5, h6, h7]
    rw [hx]
    exact gradeLadder_ge_5 y (by linarith)
  by_cases h8 : 55 ≤ x
  · have hx : gradeLadder x = 4 := by simp [gradeLadder, h1, h2, h3, h4, h5, h6, h7, h8]
    rw [hx]
    exact gradeLadder_ge_4 y (by linarith)
  by_cases h9 : 50 ≤ x
  · have hx : gradeLadder x = 3 := by simp [gradeLadder, h1, h2, h3, h4, h5, h6, h7, h8, h9]
    rw [hx]
    exact gradeLadder_ge_3 y (by linarith)
  by_cases h10 : 45 ≤ x
  · have hx : gradeLadder x = 2 := by simp [gradeLadder, h1, h2, h3, h4, h5, h6, h7, h8, h9, h10]
    rw [hx]
    exact gradeLadder_ge_2 y (by linarith)
  by_cases h11 : 40 ≤ x
  · have hx : gradeLadder x = 1 := by simp [gradeLadder, h1, h2, h3, h4, h5, h6, h7, h8, h9, h10, h11]
    rw [hx]
    exact gradeLadder_ge_1 y (by linarith)
  · have hx : gradeLadder x = 0 := by simp [gradeLadder, h1, h2, h3, h4, h5, h6, h7, h8, h9, h10, h11]
    rw [hx]
    exact Nat.zero_le _

/-- Witness for C4 at the concrete pair 42 le 87: grade D has a smaller
ordinal than grade A. -/
theorem grade_monotone_witness :
    (42 : ℚ) ≤ 87 ∧ gradeOrd (calculateGrade 42) ≤ gradeOrd (calculateGrade 87) :=
  ⟨by norm_num, grade_monotone 42 87 (by norm_num)⟩

/-- C9: each rating function is a two-threshold ladder with boundaries
inclusive of the lower tier (LCP 2500/4000, FCP 1800/3000, CLS 0.10/0.25,
TTFB 800/1800, INP 200/500), and in particular CLS = 0.10 rates good. -/
theorem rating_ladders :
    (∀ lcp : ℤ, (rateLCP lcp = "good" ↔ lcp ≤ 2500) ∧
      (rateLCP lcp = "needs-improvement" ↔ 2500 < lcp ∧ lcp ≤ 4000) ∧
      (rateLCP lcp = "poor" ↔ 4000 < lcp)) ∧
    (∀ fcp : ℤ, (rateFCP fcp = "good" ↔ fcp ≤ 1800) ∧
      (rateFCP fcp = "needs-improvement" ↔ 1800 < fcp ∧ fcp ≤ 3000) ∧
      (rateFCP fcp = "poor" ↔ 3000 < fcp)) ∧
    (∀ cls : ℚ, (rateCLS cls = "good" ↔ cls ≤ 1/10) ∧
      (rateCLS cls = "needs-improvement" ↔ 1/10 < cls ∧ cls ≤ 25/100) ∧
      (rateCLS cls = "poor" ↔ 25/100 < cls)) ∧
    (∀ ttfb : ℚ, (rateTTFB ttfb = "good" ↔ ttfb ≤ 800) ∧
      (rateTTFB ttfb = "needs-improvement" ↔ 800 < ttfb ∧ ttfb ≤ 1800) ∧
      (rateTTFB ttfb = "poor" ↔ 1800 < ttfb)) ∧
    (∀ inp : ℚ, (rateINP inp = "good" ↔ inp ≤ 200) ∧
      (rateINP inp = "needs-improvement" ↔ 200 < inp ∧ inp ≤ 500) ∧
      (rateINP inp = "poor" ↔ 500 < inp)) ∧
    rateCLS (1/10) = "good" := by
  refine ⟨fun v => ?_, fun v => ?_, fun v => ?_, fun v => ?_, fun v => ?_,
    by norm_num [rateCLS]⟩ <;>
  simp only [rateLCP, rateFCP, rateCLS, rateTTFB, rateINP] <;>
  split_ifs <;>
    refine ⟨?_, ?_, ?_⟩ <;>
    constructor <;>
    intro hh <;>
    first
      | rfl
      | (simp at hh; done)
      | linarith
      | (constructor <;> linarith)
      | (exfalso; obtain ⟨ha, hb⟩ := hh; linarith)
      | (exfalso; linarith)

/-- C7: the recommendation list is the concatenation of the eight category
issue lists in the fixed order Technical, On-Page, Content, Links, Schema,
Security, UX, Performance, with one critical marker prepended per holding
condition, evaluated in the order technical score below 50, not HTTPS,
missing title, so the last-evaluated holding condition ends up first. -/
theorem recommendations_shape :
    ∀ a : SEOAudit,
      generateRecommendations a =
        (if a.onPageSEO.hasTitle = false then [criticalTitleMarker] else [])
          ++ (if a.security.isHTTPS = false then [criticalHTTPSMarker] else [])
          ++ (if a.technicalSEO.score < 50 then [criticalTechnicalMarker] else [])
          ++ (a.technicalSEO.issues ++ a.onPageSEO.issues ++ a.contentQuality.issues
            ++ a.linkStructure.issues ++ a.schemaMarkup.issues ++ a.security.issues
            ++ a.userExperience.issues ++ a.webVitals.issues) := by
  intro a
  unfold generateRecommendations
  rcases hT : a.onPageSEO.hasTitle <;> rcases hS : a.security.isHTTPS <;>
    by_cases hc : a.technicalSEO.score < 50 <;>
    simp [hT, hS, hc]

/-- C10: the overall score and the grade depend only on the seven mandatory
category results; two audits with identical mandatory categories but
arbitrarily different web-vitals results aggregate and grade identically. -/
theorem overall_independent_of_webVitals :
    ∀ a1 a2 : SEOAudit,
      a1.technicalSEO = a2.technicalSEO → a1.onPageSEO = a2.onPageSEO →
      a1.contentQuality = a2.contentQuality → a1.linkStructure = a2.linkStructure →
      a1.schemaMarkup = a2.schemaMarkup → a1.security = a2.security →
      a1.userExperience = a2.userExperience →
      calculateOverallScore a1 = calculateOverallScore a2 ∧
        calculateGrade (calculateOverallScore a1) = calculateGrade (calculateOverallScore a2) := by
  intro a1 a2 h1 h2 h3 h4 h5 h6 h7
  have hs : calculateOverallScore a1 = calculateOverallScore a2 := by
    unfold calculateOverallScore
    rw [h1, h2, h3, h4, h5, h6, h7]
  exact ⟨hs, by rw [hs]⟩

/-- Witness for C10: two audits equal in the seven mandatory categories but
with very different web-vitals results get the same overall score and grade. -/
theorem overall_independent_of_webVitals_witness :
    (baseAudit sampleWebVitalsA).technicalSEO = (baseAudit sampleWebVitalsB).technicalSEO ∧
    (baseAudit sampleWebVitalsA).onPageSEO = (baseAudit sampleWebVitalsB).onPageSEO ∧
    (baseAudit sampleWebVitalsA).contentQuality = (baseAudit sampleWebVitalsB).contentQuality ∧
    (baseAudit sampleWebVitalsA).linkStructure = (baseAudit sampleWebVitalsB).linkStructure ∧
    (baseAudit sampleWebVitalsA).schemaMarkup = (baseAudit sampleWebVitalsB).schemaMarkup ∧
    (baseAudit sampleWebVitalsA).security = (baseAudit sampleWebVitalsB).security ∧
    (baseAudit sampleWebVitalsA).userExperience = (baseAudit sampleWebVitalsB).userExperience ∧
    calculateOverallScore (baseAudit sampleWebVitalsA)
        = calculateOverallScore (baseAudit sampleWebVitalsB) ∧
      calculateGrade (calculateOverallScore (baseAudit sampleWebVitalsA))
        = calculateGrade (calculateOverallScore (baseAudit sampleWebVitalsB)) :=
  ⟨rfl, rfl, rfl, rfl, rfl, rfl, rfl,
    overall_independent_of_webVitals (baseAudit sampleWebVitalsA) (baseAudit sampleWebVitalsB)
      rfl rfl rfl rfl rfl rfl rfl⟩

lemma techHTTPSCheck_fst_bounds (x : String) :
    0 ≤ (techHTTPSCheck x).1 ∧ (techHTTPSCheck x).1 ≤ 15 := by
  unfold techHTTPSCheck
  split_ifs <;> norm_num

lemma techViewportCheck_fst_bounds (n : ℕ) :
    0 ≤ (techViewportCheck n).1 ∧ (techViewportCheck n).1 ≤ 10 := by
  unfold techViewportCheck
  split_ifs <;> norm_num

lemma techRobotsCheck_fst_bounds (b : Bool) :
    0 ≤ (techRobotsCheck b).1 ∧ (techRobotsCheck b).1 ≤ 10 := by
  unfold techRobotsCheck
  split_ifs <;> norm_num

lemma techSitemapCheck_fst_bounds (b : Bool) :
    0 ≤ (techSitemapCheck b).1 ∧ (techSitemapCheck b).1 ≤ 10 := by
  unfold techSitemapCheck
  split_ifs <;> norm_num

lemma techLoadTimeCheck_fst_bounds (q : ℚ) :
    0 ≤ (techLoadTimeCheck q).1 ∧ (techLoadTimeCheck q).1 ≤ 20 := by
  unfold techLoadTimeCheck
  split_ifs <;> norm_num

lemma techPageSizeCheck_fst_bounds (n : ℕ) :
    0 ≤ (techPageSizeCheck n).1 ∧ (techPageSizeCheck n).1 ≤ 10 := by
  unfold techPageSizeCheck
  split_ifs <;> norm_num

lemma techRequestsCheck_fst_bounds (n : ℕ) :
    0 ≤ (techRequestsCheck n).1 ∧ (techRequestsCheck n).1 ≤ 10 := by
  unfold techRequestsCheck
  split_ifs <;> norm_num

lemma techCanonicalCheck_fst_bounds (n : ℕ) :
    0 ≤ (techCanonicalCheck n).1 ∧ (techCanonicalCheck n).1 ≤ 10 := by
  unfold techCanonicalCheck
  split_ifs <;> norm_num

lemma onPageTitleCheck_fst_bounds (x : String) :
    0 ≤ (onPageTitleCheck x).1 ∧ (onPageTitleCheck x).1 ≤ 25 := by
  unfold onPageTitleCheck
  split_ifs <;> norm_num

lemma onPageMetaDescCheck_fst_bounds (x : String) :
    0 ≤ (onPageMetaDescCheck x).1 ∧ (onPageMetaDescCheck x).1 ≤ 25 := by
  unfold onPageMetaDescCheck
  split_ifs <;> norm_num

lemma onPageH1Check_fst_bounds (n : ℕ) :
    0 ≤ (onPageH1Check n).1 ∧ (onPageH1Check n).1 ≤ 15 := by
  unfold onPageH1Check
  split_ifs <;> norm_num

lemma onPageHierarchyCheck_fst_bounds (b : Bool) :
    0 ≤ (onPageHierarchyCheck b).1 ∧ (onPageHierarchyCheck b).1 ≤ 10 := by
  unfold onPageHierarchyCheck
  split_ifs <;> norm_num

lemma onPageOGCheck_fst_bounds (b : Bool) :
    0 ≤ (onPageOGCheck b).1 ∧ (onPageOGCheck b).1 ≤ 10 := by
  unfold onPageOGCheck
  split_ifs <;> norm_num

lemma onPageTwitterCheck_fst_bounds (n : ℕ) :
    0 ≤ (onPageTwitterCheck n).1 ∧ (onPageTwitterCheck n).1 ≤ 5 := by
  unfold onPageTwitterCheck
  split_ifs <;> norm_num

lemma onPageCanonicalCheck_fst_bounds (n : ℕ) :
    0 ≤ (onPageCanonicalCheck n).1 ∧ (onPageCanonicalCheck n).1 ≤ 10 := by
  unfold onPageCanonicalCheck
  split_ifs <;> norm_num

lemma contentWordCountCheck_fst_bounds (n : ℕ) :
    0 ≤ (contentWordCountCheck n).1 ∧ (contentWordCountCheck n).1 ≤ 25 := by
  unfold contentWordCountCheck
  split_ifs <;> norm_num

lemma contentAltTextCheck_fst_bounds (n m : ℕ) :
    0 ≤ (contentAltTextCheck n m).1 ∧ (contentAltTextCheck n m).1 ≤ 20 := by
  simp only [contentAltTextCheck]
  split_ifs <;> norm_num

lemma contentInternalLinksCheck_fst_bounds (n : ℕ) :
    0 ≤ (contentInternalLinksCheck n).1 ∧ (contentInternalLinksCheck n).1 ≤ 15 := by
  unfold contentInternalLinksCheck
  split_ifs <;> norm_num

lemma contentExternalLinksCheck_fst_bounds (n : ℕ) :
    0 ≤ (contentExternalLinksCheck n).1 ∧ (contentExternalLinksCheck n).1 ≤ 10 := by
  unfold contentExternalLinksCheck
  split_ifs <;> norm_num

lemma contentReadabilityCheck_fst_bounds (n m : ℕ) :
    0 ≤ (contentReadabilityCheck n m).1 ∧ (contentReadabilityCheck n m).1 ≤ 10 := by
  unfold contentReadabilityCheck
  split_ifs <;> norm_num

lemma linkInternalCheck_fst_bounds (n : ℕ) :
    0 ≤ (linkInternalCheck n).1 ∧ (linkInternalCheck n).1 ≤ 25 := by
  unfold linkInternalCheck
  split_ifs <;> norm_num

lemma linkExternalCheck_fst_bounds (n : ℕ) :
    0 ≤ (linkExternalCheck n).1 ∧ (linkExternalCheck n).1 ≤ 15 := by
  unfold linkExternalCheck
  split_ifs <;> norm_num

lemma linkDescriptiveAnchorsCheck_fst_bounds (n m : ℕ) :
    0 ≤ (linkDescriptiveAnchorsCheck n m).1 ∧ (linkDescriptiveAnchorsCheck n m).1 ≤ 20 := by
  simp only [linkDescriptiveAnchorsCheck]
  split_ifs <;> norm_num

lemma linkBreadcrumbCheck_fst_bounds (n : ℕ) :
    0 ≤ (linkBreadcrumbCheck n).1 ∧ (linkBreadcrumbCheck n).1 ≤ 20 := by
  unfold linkBreadcrumbCheck
  split_ifs <;> norm_num

lemma schemaTypeBonus_fst_bounds (n : ℕ) :
    0 ≤ (schemaTypeBonus n).1 ∧ (schemaTypeBonus n).1 ≤ 40 := by
  unfold schemaTypeBonus
  split_ifs <;> norm_num

lemma schemaOrganizationCheck_fst_bounds (b : Bool) :
    0 ≤ (schemaOrganizationCheck b).1 ∧ (schemaOrganizationCheck b).1 ≤ 15 := by
  unfold schemaOrganizationCheck
  split_ifs <;> norm_num

lemma schemaBreadcrumbCheck_fst_bounds (b : Bool) :
    0 ≤ (schemaBreadcrumbCheck b).1 ∧ (schemaBreadcrumbCheck b).1 ≤ 15 := by
  unfold schemaBreadcrumbCheck
  split_ifs <;> norm_num

lemma securityHTTPSCheck_fst_bounds (b : Bool) :
    0 ≤ (securityHTTPSCheck b).1 ∧ (securityHTTPSCheck b).1 ≤ 40 := by
  unfold securityHTTPSCheck
  split_ifs <;> norm_num

lemma securityMixedContentCheck_fst_bounds (b c : Bool) :
    0 ≤ (securityMixedContentCheck b c).1 ∧ (securityMixedContentCheck b c).1 ≤ 30 := by
  unfold securityMixedContentCheck
  split_ifs <;> norm_num

lemma uxFaviconCheck_fst_bounds (n : ℕ) :
    0 ≤ (uxFaviconCheck n).1 ∧ (uxFaviconCheck n).1 ≤ 20 := by
  unfold uxFaviconCheck
  split_ifs <;> norm_num

lemma uxLangCheck_fst_bounds (n : ℕ) :
    0 ≤ (uxLangCheck n).1 ∧ (uxLangCheck n).1 ≤ 25 := by
  unfold uxLangCheck
  split_ifs <;> norm_num

lemma uxPopupCheck_fst_bounds (n : ℕ) :
    0 ≤ (uxPopupCheck n).1 ∧ (uxPopupCheck n).1 ≤ 30 := by
  unfold uxPopupCheck
  split_ifs <;> norm_num

lemma onPageH2Points_bounds (n : ℕ) :
    0 ≤ onPageH2Points n ∧ onPageH2Points n ≤ 5 := by
  unfold onPageH2Points
  split_ifs <;> norm_num

lemma onPageKeywordPoints_bounds (x : String) :
    0 ≤ onPageKeywordPoints x ∧ onPageKeywordPoints x ≤ 5 := by
  unfold onPageKeywordPoints
  split_ifs <;> norm_num

lemma contentParagraphPoints_bounds (n : ℕ) :
    0 ≤ contentParagraphPoints n ∧ contentParagraphPoints n ≤ 10 := by
  unfold contentParagraphPoints
  split_ifs <;> norm_num

lemma uxFontSizeCheck_fst_bounds (o : Option String) :
    0 ≤ (uxFontSizeCheck o).1 ∧ (uxFontSizeCheck o).1 ≤ 25 := by
  rcases o with _ | fs
  · norm_num [uxFontSizeCheck]
  · simp only [uxFontSizeCheck]
    split_ifs <;> norm_num

lemma ratingPoints_bounds (r : String) :
    0 ≤ ratingPoints r ∧ ratingPoints r ≤ 20 := by
  unfold ratingPoints
  split_ifs <;> norm_num

lemma auditTechnicalSEO_score_bounds (s : TechnicalSignals) :
    0 ≤ (auditTechnicalSEO s).score ∧ (auditTechnicalSEO s).score ≤ 100 := by
  obtain ⟨a1, b1⟩ := techHTTPSCheck_fst_bounds s.scheme
  obtain ⟨a2, b2⟩ := techViewportCheck_fst_bounds s.viewportCount
  obtain ⟨a3, b3⟩ := techRobotsCheck_fst_bounds s.robotsTxtExists
  obtain ⟨a4, b4⟩ := techSitemapCheck_fst_bounds s.sitemapExists
  obtain ⟨a5, b5⟩ := techLoadTimeCheck_fst_bounds s.loadTime
  obtain ⟨a6, b6⟩ := techPageSizeCheck_fst_bounds s.contentLength
  obtain ⟨a7, b7⟩ := techRequestsCheck_fst_bounds (s.imgCount + s.scriptCount + s.stylesheetCount)
  obtain ⟨a8, b8⟩ := techCanonicalCheck_fst_bounds s.canonicalCount
  constructor <;> (simp only [auditTechnicalSEO]; linarith)

lemma auditOnPageSEO_score_bounds (s : OnPageSignals) :
    0 ≤ (auditOnPageSEO s).score ∧ (auditOnPageSEO s).score ≤ 110 := by
  obtain ⟨a1, b1⟩ := onPageTitleCheck_fst_bounds s.title
  obtain ⟨a2, b2⟩ := onPageMetaDescCheck_fst_bounds s.metaDescription
  obtain ⟨a3, b3⟩ := onPageH1Check_fst_bounds s.h1Count
  obtain ⟨a4, b4⟩ := onPageH2Points_bounds s.h2Count
  obtain ⟨a5, b5⟩ := onPageHierarchyCheck_fst_bounds (checkHeadingHierarchy s)
  obtain ⟨a6, b6⟩ := onPageOGCheck_fst_bounds
    (decide (0 < s.ogTitleCount ∧ 0 < s.ogDescCount ∧ 0 < s.ogImageCount))
  obtain ⟨a7, b7⟩ := onPageTwitterCheck_fst_bounds s.twitterCardCount
  obtain ⟨a8, b8⟩ := onPageCanonicalCheck_fst_bounds s.canonicalCount
  obtain ⟨a9, b9⟩ := onPageKeywordPoints_bounds s.title
  constructor <;> (simp only [auditOnPageSEO]; linarith)

lemma auditContentQuality_score_bounds (s : ContentSignals) :
    0 ≤ (auditContentQuality s).score ∧ (auditContentQuality s).score ≤ 100 := by
  obtain ⟨a1, b1⟩ := contentWordCountCheck_fst_bounds s.wordCount
  obtain ⟨a2, b2⟩ := contentParagraphPoints_bounds s.paragraphCount
  obtain ⟨a3, b3⟩ := contentAltTextCheck_fst_bounds s.imageCount s.imagesWithAlt
  obtain ⟨a4, b4⟩ := contentInternalLinksCheck_fst_bounds s.internalLinks
  obtain ⟨a5, b5⟩ := contentExternalLinksCheck_fst_bounds s.externalLinks
  obtain ⟨a6, b6⟩ := contentReadabilityCheck_fst_bounds s.wordCount s.sentenceMarks
  constructor <;> (simp only [auditContentQuality]; linarith)

lemma auditLinkStructure_score_bounds (s : LinkSignals) :
    0 ≤ (auditLinkStructure s).score ∧ (auditLinkStructure s).score ≤ 100 := by
  obtain ⟨a1, b1⟩ := linkInternalCheck_fst_bounds s.internalLinks
  obtain ⟨a2, b2⟩ := linkExternalCheck_fst_bounds s.externalLinks
  obtain ⟨a3, b3⟩ := linkDescriptiveAnchorsCheck_fst_bounds
    (totalAnchors s.anchorTexts) (descriptiveAnchors s.anchorTexts)
  obtain ⟨a4, b4⟩ := linkBreadcrumbCheck_fst_bounds s.breadcrumbCount
  constructor <;> (simp only [auditLinkStructure]; linarith)

lemma auditSchemaMarkup_score_bounds (s : SchemaSignals) :
    0 ≤ (auditSchemaMarkup s).score ∧ (auditSchemaMarkup s).score ≤ 100 := by
  obtain ⟨a1, b1⟩ := schemaTypeBonus_fst_bounds (schemaTypesOf s.jsonLdBlocks).length
  obtain ⟨a2, b2⟩ := schemaOrganizationCheck_fst_bounds (schemaHasOrganization s.jsonLdBlocks)
  obtain ⟨a3, b3⟩ := schemaBreadcrumbCheck_fst_bounds (schemaHasBreadcrumb s.jsonLdBlocks)
  unfold auditSchemaMarkup
  split_ifs <;> constructor <;> simp only [] <;> first | linarith | norm_num

lemma auditSecurity_score_bounds (s : SecuritySignals) :
    0 ≤ (auditSecurity s).score ∧ (auditSecurity s).score ≤ 100 := by
  obtain ⟨a1, b1⟩ := securityHTTPSCheck_fst_bounds (decide (s.scheme = "https"))
  obtain ⟨a2, b2⟩ := securityMixedContentCheck_fst_bounds (decide (s.scheme = "https"))
    (decide (0 < s.httpImageCount ∨ 0 < s.httpScriptCount ∨ 0 < s.httpLinkCount))
  constructor <;> (simp only [auditSecurity, securityHeadersCheck]; linarith)

lemma auditUserExperience_score_bounds (s : UXSignals) :
    0 ≤ (auditUserExperience s).score ∧ (auditUserExperience s).score ≤ 100 := by
  obtain ⟨a1, b1⟩ := uxFaviconCheck_fst_bounds s.faviconCount
  obtain ⟨a2, b2⟩ := uxLangCheck_fst_bounds s.langCount
  obtain ⟨a3, b3⟩ := uxFontSizeCheck_fst_bounds s.bodyFontSize
  obtain ⟨a4, b4⟩ := uxPopupCheck_fst_bounds s.modalCount
  constructor <;> (simp only [auditUserExperience]; linarith)

lemma calculateWebVitalsScore_bounds (wv : WebVitalsScore) :
    0 ≤ calculateWebVitalsScore wv ∧ calculateWebVitalsScore wv ≤ 100 := by
  obtain ⟨l0, l1⟩ := ratingPoints_bounds wv.lcpRating
  obtain ⟨f0, f1⟩ := ratingPoints_bounds wv.fcpRating
  obtain ⟨c0, c1⟩ := ratingPoints_bounds wv.clsRating
  obtain ⟨i0, i1⟩ := ratingPoints_bounds wv.inpRating
  obtain ⟨t0, t1⟩ := ratingPoints_bounds wv.ttfbRating
  unfold calculateWebVitalsScore
  by_cases hl : 0 < wv.lcp <;> by_cases hf : 0 < wv.fcp <;>
    by_cases hi : 0 < wv.inp <;> by_cases ht : 0 < wv.ttfb <;>
    simp only [hl, hf, hi, ht, if_true, if_false] <;>
    norm_num <;>
    constructor <;> linarith

lemma auditWebVitals_score (p : PerfSignals) :
    (auditWebVitals p).score = calculateWebVitalsScore (extractWebVitals p) := rfl

lemma auditSchemaMarkup_maxScore (s : SchemaSignals) :
    (auditSchemaMarkup s).maxScore = 100 := by
  unfold auditSchemaMarkup
  split_ifs <;> rfl

/-- C2 (amended): every category scorer stays within [0, maxScore] on all
well-formed signals, with one exception forced by the code: the On-Page
scorer can award up to 110 points against a declared maxScore of 100, so
its score lies in [0, 110]. -/
theorem category_score_bounds :
    (∀ s : TechnicalSignals,
      0 ≤ (auditTechnicalSEO s).score ∧ (auditTechnicalSEO s).score ≤ (auditTechnicalSEO s).maxScore) ∧
    (∀ s : OnPageSignals,
      0 ≤ (auditOnPageSEO s).score ∧ (auditOnPageSEO s).score ≤ 110) ∧
    (∀ s : ContentSignals,
      0 ≤ (auditContentQuality s).score ∧ (auditContentQuality s).score ≤ (auditContentQuality s).maxScore) ∧
    (∀ s : LinkSignals,
      0 ≤ (auditLinkStructure s).score ∧ (auditLinkStructure s).score ≤ (auditLinkStructure s).maxScore) ∧
    (∀ s : SchemaSignals,
      0 ≤ (auditSchemaMarkup s).score ∧ (auditSchemaMarkup s).score ≤ (auditSchemaMarkup s).maxScore) ∧
    (∀ s : SecuritySignals,
      0 ≤ (auditSecurity s).score ∧ (auditSecurity s).score ≤ (auditSecurity s).maxScore) ∧
    (∀ s : UXSignals,
      0 ≤ (auditUserExperience s).score ∧ (auditUserExperience s).score ≤ (auditUserExperience s).maxScore) ∧
    (∀ p : PerfSignals,
      0 ≤ (auditWebVitals p).score ∧ (auditWebVitals p).score ≤ (auditWebVitals p).maxScore) := by
  refine ⟨fun s => auditTechnicalSEO_score_bounds s,
    fun s => auditOnPageSEO_score_bounds s,
    fun s => auditContentQuality_score_bounds s,
    fun s => auditLinkStructure_score_bounds s,
    fun s => ?_,
    fun s => auditSecurity_score_bounds s,
    fun s => auditUserExperience_score_bounds s,
    fun p => ?_⟩
  · refine ⟨(auditSchemaMarkup_score_bounds s).1, ?_⟩
    rw [auditSchemaMarkup_maxScore]
    exact (auditSchemaMarkup_score_bounds s).2
  · rw [auditWebVitals_score]
    exact calculateWebVitalsScore_bounds (extractWebVitals p)

set_option maxRecDepth 8192 in
/-- Counterexample to C2 as stated: an on-page signal snapshot on which
every on-page check passes at full award scores 110, exceeding the declared
maxScore of 100. -/
theorem onPage_score_exceeds_maxScore :
    (auditOnPageSEO perfectOnPageSignals).score = 110 ∧
    (auditOnPageSEO perfectOnPageSignals).maxScore = 100 ∧
    ¬ ((auditOnPageSEO perfectOnPageSignals).score ≤ (auditOnPageSEO perfectOnPageSignals).maxScore) := by
  have hT : ("Great Example Page Title For The Audit Tool Demo 12345!" : String).length = 55 := by
    decide
  have hTne : ("Great Example Page Title For The Audit Tool Demo 12345!" : String) ≠ "" := by
    decide
  have hM : ("This meta description is deliberately padded so that its byte length lands inside the optimal one hundred fifty to one hundred sixty character band okay!!" : String).length = 154 := by
    decide
  have hMne : ("This meta description is deliberately padded so that its byte length lands inside the optimal one hundred fifty to one hundred sixty character band okay!!" : String) ≠ "" := by
    decide
  have hs : (auditOnPageSEO perfectOnPageSignals).score = 110 := by
    norm_num [auditOnPageSEO, perfectOnPageSignals, onPageTitleCheck, onPageMetaDescCheck,
      onPageH1Check, onPageH2Points, onPageHierarchyCheck, onPageOGCheck, onPageTwitterCheck,
      onPageCanonicalCheck, onPageKeywordPoints, checkHeadingHierarchy, hT, hTne, hM, hMne]
  refine ⟨hs, rfl, ?_⟩
  rw [hs, show (auditOnPageSEO perfectOnPageSignals).maxScore = 100 from rfl]
  norm_num

/-- C8: a zero denominator is an automatic pass with a fixed substitute
award and no issue: with 0 images the content-quality alt-text branch
contributes a flat (10, no issue) to the score and issue list, and with 0
anchors carrying non-empty text the link-structure descriptive-anchor
branch contributes a flat (15, no issue). -/
theorem zero_denominator_flat_awards :
    ∀ (cs : ContentSignals) (ls : LinkSignals),
      cs.imageCount = 0 → totalAnchors ls.anchorTexts = 0 →
      contentAltTextCheck cs.imageCount cs.imagesWithAlt = (10, []) ∧
      (auditContentQuality cs).score =
        (contentWordCountCheck cs.wordCount).1 + contentParagraphPoints cs.paragraphCount
          + 10 + (contentInternalLinksCheck cs.internalLinks).1
          + (contentExternalLinksCheck cs.externalLinks).1
          + (contentReadabilityCheck cs.wordCount cs.sentenceMarks).1 ∧
      (auditContentQuality cs).issues =
        (contentWordCountCheck cs.wordCount).2 ++ (contentInternalLinksCheck cs.internalLinks).2
          ++ (contentExternalLinksCheck cs.externalLinks).2
          ++ (contentReadabilityCheck cs.wordCount cs.sentenceMarks).2 ∧
      linkDescriptiveAnchorsCheck (totalAnchors ls.anchorTexts) (descriptiveAnchors ls.anchorTexts)
          = (15, []) ∧
      (auditLinkStructure ls).score =
        (linkInternalCheck ls.internalLinks).1 + (linkExternalCheck ls.externalLinks).1 + 15
          + (linkBreadcrumbCheck ls.breadcrumbCount).1 + 20 ∧
      (auditLinkStructure ls).issues =
        (linkInternalCheck ls.internalLinks).2 ++ (linkExternalCheck ls.externalLinks).2
          ++ (linkBreadcrumbCheck ls.breadcrumbCount).2 := by
  intro cs ls hImg hAnch
  have hAlt : contentAltTextCheck cs.imageCount cs.imagesWithAlt = (10, []) := by
    rw [hImg]
    simp [contentAltTextCheck]
  have hDesc : linkDescriptiveAnchorsCheck (totalAnchors ls.anchorTexts)
      (descriptiveAnchors ls.anchorTexts) = (15, []) := by
    rw [hAnch]
    simp [linkDescriptiveAnchorsCheck]
  refine ⟨hAlt, ?_, ?_, hDesc, ?_, ?_⟩
  · simp [auditContentQuality, hAlt]
  · simp [auditContentQuality, hAlt]
  · simp [auditLinkStructure, hDesc]
  · simp [auditLinkStructure, hDesc]

/-- Witness for C8 at concrete signals with no images and no anchors with
text. -/
theorem zero_denominator_flat_awards_witness :
    noImagesContentSignals.imageCount = 0 ∧
    totalAnchors noAnchorTextLinkSignals.anchorTexts = 0 ∧
    contentAltTextCheck noImagesContentSignals.imageCount noImagesContentSignals.imagesWithAlt
        = (10, []) ∧
    linkDescriptiveAnchorsCheck (totalAnchors noAnchorTextLinkSignals.anchorTexts)
        (descriptiveAnchors noAnchorTextLinkSignals.anchorTexts) = (15, []) :=
  ⟨rfl, by decide,
    (zero_denominator_flat_awards noImagesContentSignals noAnchorTextLinkSignals rfl (by decide)).1,
    (zero_denominator_flat_awards noImagesContentSignals noAnchorTextLinkSignals rfl
      (by decide)).2.2.2.1⟩

lemma blockSchemaTypes_length (b : SchemaBlockFlags) :
    (blockSchemaTypes b).length = blockRecognizedTypeCount b := by
  unfold blockSchemaTypes blockRecognizedTypeCount
  split_ifs <;> simp

lemma schemaTypesOf_length (blocks : List SchemaBlockFlags) :
    (schemaTypesOf blocks).length = totalTypeMatches blocks := by
  induction blocks with
  | nil => rfl
  | cons b bs ih =>
    simp only [schemaTypesOf, totalTypeMatches, List.map_cons, List.flatten_cons,
      List.length_append, List.sum_cons] at ih ⊢
    rw [blockSchemaTypes_length, ih]

/-- Counterexample to C6 as stated: two JSON-LD blocks both mentioning only
Article carry one distinct recognized type, for which the claim awards 20
(total score 30 + 20 = 50), but the code appends "Article" once per block,
counts 2 entries, and awards 30 (total score 60). -/
theorem schema_type_bonus_counts_duplicates :
    (schemaTypesOf duplicateArticleSignals.jsonLdBlocks).dedup.length = 1 ∧
    (schemaTypesOf duplicateArticleSignals.jsonLdBlocks).length = 2 ∧
    (schemaTypeBonus (schemaTypesOf duplicateArticleSignals.jsonLdBlocks).length).1 = 30 ∧
    (auditSchemaMarkup duplicateArticleSignals).score = 60 ∧
    (60 : ℚ) ≠ 30 + 20 := by
  refine ⟨by decide, by decide, ?_, ?_, by norm_num⟩
  · norm_num [schemaTypeBonus, schemaTypesOf, blockSchemaTypes, duplicateArticleSignals,
      articleOnlyBlock]
  · norm_num [auditSchemaMarkup, duplicateArticleSignals, articleOnlyBlock, schemaTypesOf,
      blockSchemaTypes, schemaHasOrganization, schemaHasBreadcrumb, schemaTypeBonus,
      schemaOrganizationCheck, schemaBreadcrumbCheck]

/-- C6 (amended): when JSON-LD blocks are present, the tiered type bonus is
40/30/20 according to whether the total number of recognized-type
detections — one per block per recognized type contained, with a type
occurring in several blocks counted once per block, not deduplicated — is
at least 3, exactly 2, or exactly 1. -/
theorem schema_type_bonus_matches_total :
    ∀ s : SchemaSignals, 0 < s.jsonLdBlocks.length →
      (auditSchemaMarkup s).score =
        30 + (schemaTypeBonus (totalTypeMatches s.jsonLdBlocks)).1
          + (schemaOrganizationCheck (schemaHasOrganization s.jsonLdBlocks)).1
          + (schemaBreadcrumbCheck (schemaHasBreadcrumb s.jsonLdBlocks)).1 := by
  intro s h
  unfold auditSchemaMarkup
  rw [if_pos h]
  simp only [schemaTypesOf_length]

/-- Witness for C6 (amended) at the duplicated-Article input. -/
theorem schema_type_bonus_matches_total_witness :
    0 < duplicateArticleSignals.jsonLdBlocks.length ∧
    (auditSchemaMarkup duplicateArticleSignals).score =
      30 + (schemaTypeBonus (totalTypeMatches duplicateArticleSignals.jsonLdBlocks)).1
        + (schemaOrganizationCheck (schemaHasOrganization duplicateArticleSignals.jsonLdBlocks)).1
        + (schemaBreadcrumbCheck (schemaHasBreadcrumb duplicateArticleSignals.jsonLdBlocks)).1 :=
  ⟨by decide, schema_type_bonus_matches_total duplicateArticleSignals (by decide)⟩

lemma ratingPoints_eq_specTierPoints (r : String) : ratingPoints r = specTierPoints r := by
  unfold ratingPoints specTierPoints
  split_ifs <;> norm_num

lemma capturedInt_points (o : Option ℤ) (rate : ℤ → String) :
    (if 0 < capturedInt o then ratingPoints (capturedIntRating o rate) else 0)
      = (specIntContribution o rate).sum := by
  rcases o with _ | v
  · simp [capturedInt, capturedIntRating, specIntContribution]
  · by_cases hv : 0 < v <;>
      simp [capturedInt, capturedIntRating, specIntContribution, hv,
        ratingPoints_eq_specTierPoints]

lemma capturedInt_count (o : Option ℤ) (rate : ℤ → String) :
    (if 0 < capturedInt o then (1 : ℕ) else 0) = (specIntContribution o rate).length := by
  rcases o with _ | v
  · simp [capturedInt, specIntContribution]
  · by_cases hv : 0 < v <;> simp [capturedInt, specIntContribution, hv]

lemma capturedRat_points (o : Option ℚ) (rate : ℚ → String) :
    (if 0 < capturedRat o then ratingPoints (capturedRatRating o rate) else 0)
      = (specRatContribution o rate).sum := by
  rcases o with _ | v
  · simp [capturedRat, capturedRatRating, specRatContribution]
  · by_cases hv : 0 < v <;>
      simp [capturedRat, capturedRatRating, specRatContribution, hv,
        ratingPoints_eq_specTierPoints]

lemma capturedRat_count (o : Option ℚ) (rate : ℚ → String) :
    (if 0 < capturedRat o then (1 : ℕ) else 0) = (specRatContribution o rate).length := by
  rcases o with _ | v
  · simp [capturedRat, specRatContribution]
  · by_cases hv : 0 < v <;> simp [capturedRat, specRatContribution, hv]

lemma clsCaptured_points (o : Option ℚ) :
    ratingPoints (clsCapturedRating o) = specCLSContribution o := by
  rcases o with _ | c
  · rfl
  · simp [clsCapturedRating, specCLSContribution, ratingPoints_eq_specTierPoints]

/-- Counterexample to C5 as stated: with no metric captured at all, the
claim says CLS still defaults to the good banding at 0 (20 points, count 1,
normalized score 100), but the code leaves the CLS rating empty, scores its
contribution 0, and returns 0. -/
theorem unmeasured_cls_not_defaulted_good :
    (auditWebVitals noMetricsPerf).clsRating = "" ∧
    rateCLS 0 = "good" ∧
    (auditWebVitals noMetricsPerf).score = 0 ∧
    (auditWebVitals noMetricsPerf).score ≠ 100 := by
  have hrp : ratingPoints "" = 0 := rfl
  have h0 : (auditWebVitals noMetricsPerf).score = 0 := by
    rw [auditWebVitals_score]
    norm_num [extractWebVitals, noMetricsPerf, calculateWebVitalsScore, capturedInt,
      capturedRat, capturedIntRating, capturedRatRating, clsCaptured, clsCapturedRating, hrp]
  refine ⟨rfl, by norm_num [rateCLS], h0, by rw [h0]; norm_num⟩

/-- C5 (amended): the web-vitals score equals the spec formula over the
captured metrics — good/needs-improvement/poor contribute 20/12/4, LCP,
FCP, INP and TTFB count only when captured positive, CLS is always counted
but contributes 0 when unmeasured (rather than the good banding), and the
raw score is renormalized by capturedCount x 20 when fewer than 5 metrics
count; in particular with only CLS captured at 0.05 the score is 100. -/
theorem webVitals_score_spec :
    (∀ p : PerfSignals, (auditWebVitals p).score = specWebVitalsScore p) ∧
    (auditWebVitals clsOnlyPerf).score = 100 := by
  constructor
  · intro p
    rw [auditWebVitals_score]
    simp only [extractWebVitals, calculateWebVitalsScore, specWebVitalsScore]
    rw [capturedInt_points p.lcp rateLCP, capturedInt_points p.fcp rateFCP,
      clsCaptured_points p.cls, capturedRat_points p.inp rateINP,
      capturedRat_points p.ttfb rateTTFB, capturedInt_count p.lcp rateLCP,
      capturedInt_count p.fcp rateFCP, capturedRat_count p.inp rateINP,
      capturedRat_count p.ttfb rateTTFB]
    simp only [List.length_append, List.sum_append, List.length_cons, List.length_nil,
      List.sum_cons, List.sum_nil, add_zero, zero_add]
    have hpos : 0 < (specIntContribution p.lcp rateLCP).length
        + (specIntContribution p.fcp rateFCP).length + 1
        + (specRatContribution p.inp rateINP).length
        + (specRatContribution p.ttfb rateTTFB).length := by omega
    simp only [and_iff_right hpos]
  · rw [auditWebVitals_score]
    norm_num [extractWebVitals, clsOnlyPerf, calculateWebVitalsScore, capturedInt,
      capturedRat, capturedIntRating, capturedRatRating, clsCaptured, clsCapturedRating,
      ratingPoints, rateCLS]

end SEOChecker
